import Mathlib

/-!
Shallow embedding of the order lifecycle controller
(`src/models/order/order.controller.ts`) and the dashboard statistics
controller (`getDashboardStats`) of the agency backend, together with
proofs about the claims of the specification.

Modelling conventions:
* JSON numbers are modelled by exact rationals (`Rat`); `NaN` produced by a
  failed `parseFloat`/`parseInt` is modelled by `none` in `Option Rat`.
* Optional / possibly-absent JSON fields are `Option` values; JavaScript
  truthiness of a string field (`undefined` and `""` are falsy) and of a
  numeric field (`undefined`, `NaN` and `0` are falsy) is made explicit.
* The MongoDB `orders` collection is a `List Order`; `findOne` on `_id` is
  `List.find?`, `updateOne` rewrites the first matching document, and
  `insertOne` appends.
* Each HTTP handler becomes a pure function from the request data and the
  current collection to a response (`Except ErrResp _`) and the collection
  after the call.  An error response is produced by an early `return` in the
  source, before any write, so the collection is returned unchanged there.
-/

namespace AgencyOrders

/-- JS truthiness of an optional string: `undefined` and `""` are falsy. -/
def strTruthy : Option String → Bool
  | none => false
  | some s => s ≠ ""

/-- JS `a || b` on optional strings: keep `a` when it is truthy. -/
def strOrElse (a b : Option String) : Option String :=
  if strTruthy a then a else b

/-- JS `a || d` on an optional string with a string default. -/
def strOrDefault (a : Option String) (d : String) : String :=
  match a with
  | some s => if s ≠ "" then s else d
  | none => d

/-- JS truthiness of an optional number: `undefined`, `NaN` (`none`) and `0` are falsy. -/
def numTruthy : Option Rat → Bool
  | none => false
  | some q => q ≠ 0

/-- Customer sub-document of an order (`customer` in the source). -/
structure Customer where
  name : Option String
  email : Option String
  phone : Option String
  address : Option String
  customerId : Option String
  deriving DecidableEq

/-- One line item of an order (`OrderItem` in the source). -/
structure OrderItem where
  name : Option String
  description : Option String
  quantity : Option Rat
  unitPrice : Option Rat
  totalPrice : Option Rat
  productId : Option String
  serviceId : Option String
  deriving DecidableEq

/-- Pricing sub-document; `none` models an absent (or `NaN`) numeric field. -/
structure Pricing where
  subtotal : Option Rat
  grandTotal : Option Rat
  currency : String
  tax : Option Rat
  discount : Option Rat
  shippingCost : Option Rat
  deriving DecidableEq

/-- Payment sub-document. -/
structure Payment where
  status : Option String
  method : Option String
  transactionId : Option String
  receiverNumber : Option String
  paidAt : Option Nat
  deriving DecidableEq

/-- Cancellation sub-document. -/
structure Cancellation where
  isCancelled : Bool
  cancelledBy : Option String
  reason : Option String
  cancelledAt : Option Nat
  deriving DecidableEq

/-- A stored order document.  `oid` models the Mongo `_id`; timestamps are
abstract `Nat` instants. -/
structure Order where
  oid : Nat
  orderNumber : String
  orderStatus : String
  customer : Customer
  items : List OrderItem
  pricing : Pricing
  payment : Payment
  cancellation : Cancellation
  notes : Option String
  createdAt : Nat
  updatedAt : Option Nat
  deriving DecidableEq

/-- `db.collection("orders").findOne({_id})`. -/
def findOrder (db : List Order) (id : Nat) : Option Order :=
  db.find? (fun o => o.oid == id)

/-- `db.collection("orders").updateOne({_id}, {$set: ...})`: rewrite the first
document whose `_id` matches. -/
def setOrder (db : List Order) (id : Nat) (f : Order → Order) : List Order :=
  match db with
  | [] => []
  | o :: t => if o.oid == id then f o :: t else o :: setOrder t id f

/-- An error response: HTTP status code and `message` of the JSON body. -/
structure ErrResp where
  status : Nat
  message : String
  deriving DecidableEq

instance exceptDecEq {ε α : Type} [DecidableEq ε] [DecidableEq α] :
    DecidableEq (Except ε α) := fun x y =>
  match x, y with
  | Except.ok a, Except.ok b =>
    if h : a = b then isTrue (by rw [h])
    else isFalse (by intro hh; cases hh; exact h rfl)
  | Except.error a, Except.error b =>
    if h : a = b then isTrue (by rw [h])
    else isFalse (by intro hh; cases hh; exact h rfl)
  | Except.ok _, Except.error _ => isFalse (by intro hh; exact Except.noConfusion hh)
  | Except.error _, Except.ok _ => isFalse (by intro hh; exact Except.noConfusion hh)

/-- Outcome of a mutating handler: the response (the successful branches
answer with the result of a final `findOne`) and the collection afterwards. -/
structure OpOut where
  resp : Except ErrResp (Option Order)
  db : List Order

/-- The `validStatuses` list of `updateOrderStatus`. -/
def validStatuses : List String :=
  ["pending", "confirmed", "processing", "completed", "cancelled"]

/-- `updateOrderStatus` (PATCH /orders/:id/status, admin only).  The request
body's `orderStatus` is the `target` argument; an absent field is the falsy
`""`. -/
def updateOrderStatus (db : List Order) (id : Nat) (target : String) (now : Nat) : OpOut :=
  if target = "" then
    ⟨Except.error ⟨400, "Order status is required"⟩, db⟩
  else if ¬ (validStatuses.contains target) then
    ⟨Except.error ⟨400, "Invalid order status. Must be one of: pending, confirmed, processing, completed, cancelled"⟩, db⟩
  else
    match findOrder db id with
    | none => ⟨Except.error ⟨404, "Order not found"⟩, db⟩
    | some existingOrder =>
      if existingOrder.cancellation.isCancelled && target != "cancelled" then
        ⟨Except.error ⟨400, "Cannot change status of a cancelled order"⟩, db⟩
      else
        let dbNew := setOrder db id (fun o => { o with orderStatus := target, updatedAt := some now })
        ⟨Except.ok (findOrder dbNew id), dbNew⟩

/-- The authenticated caller attached by the token middleware (`req.user`). -/
structure UserCtx where
  role : Option String
  uid : Option String
  deriving DecidableEq

/-- `user?.role === 'admin'`. -/
def isAdminOf : Option UserCtx → Bool
  | some u => u.role == some "admin"
  | none => false

/-- `user?.uid && order.customer.customerId?.toString() === user.uid`. -/
def isOwnerOf (user : Option UserCtx) (o : Order) : Bool :=
  match user with
  | some u =>
    match u.uid, o.customer.customerId with
    | some uidv, some cid => uidv ≠ "" && cid == uidv
    | _, _ => false
  | none => false

/-- `cancelOrder` (PATCH /orders/:id/cancel, any authenticated caller). -/
def cancelOrder (db : List Order) (id : Nat) (user : Option UserCtx)
    (reason : Option String) (now : Nat) : OpOut :=
  match findOrder db id with
  | none => ⟨Except.error ⟨404, "Order not found"⟩, db⟩
  | some existingOrder =>
    if existingOrder.cancellation.isCancelled then
      ⟨Except.error ⟨400, "Order is already cancelled"⟩, db⟩
    else if existingOrder.orderStatus == "completed" then
      ⟨Except.error ⟨400, "Cannot cancel a completed order"⟩, db⟩
    else
      let isAdmin := isAdminOf user
      let isOwner := isOwnerOf user existingOrder
      if !isAdmin && (existingOrder.orderStatus != "pending" && existingOrder.orderStatus != "confirmed") then
        ⟨Except.error ⟨403, "You can only cancel pending or confirmed orders"⟩, db⟩
      else
        let cancelledBy := if isAdmin then "admin" else if isOwner then "user" else "system"
        let dbNew := setOrder db id (fun o =>
          { o with
            orderStatus := "cancelled",
            cancellation :=
              { isCancelled := true,
                cancelledBy := some cancelledBy,
                reason := some (strOrDefault reason "No reason provided"),
                cancelledAt := some now },
            updatedAt := some now })
        ⟨Except.ok (findOrder dbNew id), dbNew⟩

/-- The request body of `updateOrder`.  `req.body` is arbitrary JSON and the
source deletes only the exact keys `_id`, `orderNumber`, `createdAt`,
`orderStatus` and `cancellation` before handing the rest to `$set`.  A
MongoDB dotted-path key such as `"cancellation.isCancelled"` is a different
body key: it survives those deletes, and `$set` interprets it as a path into
the stored `cancellation` sub-document.  The four `cancellationDot*` fields
model those dotted-path keys — `cancellation` is the one protected field that
is a sub-document.  A dotted path through one of the scalar protected fields
(`_id`, `orderNumber`, `orderStatus`, `createdAt`), say `"orderStatus.x"`,
makes the driver reject the whole update with an error before anything is
written (the 500 catch branch), and a dotted path into a non-protected field
only touches a field the endpoint may replace wholesale anyway, so neither
kind affects what the claims say about the protected fields. -/
structure UpdateBody where
  idField : Option Nat
  orderNumber : Option String
  createdAt : Option Nat
  orderStatus : Option String
  cancellation : Option Cancellation
  customer : Option Customer
  items : Option (List OrderItem)
  pricing : Option Pricing
  payment : Option Payment
  notes : Option String
  cancellationDotIsCancelled : Option Bool
  cancellationDotCancelledBy : Option String
  cancellationDotReason : Option String
  cancellationDotCancelledAt : Option Nat
  deriving DecidableEq

/-- `Object.keys(updateData).length === 0`. -/
def UpdateBody.isEmpty (b : UpdateBody) : Bool :=
  b.idField == none && b.orderNumber == none && b.createdAt == none &&
  b.orderStatus == none && b.cancellation == none && b.customer == none &&
  b.items == none && b.pricing == none && b.payment == none && b.notes == none &&
  b.cancellationDotIsCancelled == none && b.cancellationDotCancelledBy == none &&
  b.cancellationDotReason == none && b.cancellationDotCancelledAt == none

/-- `updateOrder` (PUT /orders/:id, admin only).  The source deletes the
exact `_id`, `orderNumber`, `createdAt`, `orderStatus` and `cancellation`
keys from the body before the `$set`, so those whole-field replacements are
dropped; the remaining keys take effect, including dotted-path keys into the
`cancellation` sub-document, which the exact-key deletes do not catch. -/
def updateOrder (db : List Order) (id : Nat) (body : UpdateBody) (now : Nat) : OpOut :=
  if body.isEmpty then
    ⟨Except.error ⟨400, "Request body is required and must contain update data"⟩, db⟩
  else
    match findOrder db id with
    | none => ⟨Except.error ⟨404, "Order not found"⟩, db⟩
    | some existingOrder =>
      if existingOrder.orderStatus == "completed" || existingOrder.cancellation.isCancelled then
        ⟨Except.error ⟨400, "Cannot update completed or cancelled orders"⟩, db⟩
      else
        let dbNew := setOrder db id (fun o =>
          { o with
            customer := body.customer.getD o.customer,
            items := body.items.getD o.items,
            pricing := body.pricing.getD o.pricing,
            payment := body.payment.getD o.payment,
            notes := match body.notes with
              | some n => some n
              | none => o.notes,
            cancellation :=
              { isCancelled := body.cancellationDotIsCancelled.getD o.cancellation.isCancelled,
                cancelledBy := match body.cancellationDotCancelledBy with
                  | some v => some v
                  | none => o.cancellation.cancelledBy,
                reason := match body.cancellationDotReason with
                  | some v => some v
                  | none => o.cancellation.reason,
                cancelledAt := match body.cancellationDotCancelledAt with
                  | some v => some v
                  | none => o.cancellation.cancelledAt },
            updatedAt := some now })
        ⟨Except.ok (findOrder dbNew id), dbNew⟩

/-- Fuel-driven helper for `natDigits` (the fuel only forces structural
recursion; `natDigits` always supplies enough). -/
def natDigitsAux : Nat → Nat → List Char
  | 0, _ => []
  | fuel + 1, n =>
    if n < 10 then [Nat.digitChar n]
    else natDigitsAux fuel (n / 10) ++ [Nat.digitChar (n % 10)]

/-- Big-endian decimal digit characters of `n`: the model of JS `String(n)`
for a non-negative integer. -/
def natDigits (n : Nat) : List Char :=
  natDigitsAux (n + 1) n

/-- JS `String(n)` for a non-negative integer. -/
def natToStr (n : Nat) : String :=
  String.mk (natDigits n)

/-- JS `s.padStart(len, c)`. -/
def padStart (len : Nat) (c : Char) (s : String) : String :=
  String.mk (List.replicate (len - s.data.length) c ++ s.data)

/-- Numeric value of a big-endian list of decimal digit characters. -/
def digitsVal (l : List Char) : Nat :=
  l.foldl (fun a c => a * 10 + (c.toNat - 48)) 0

/-- JS `parseInt(s)` restricted to the inputs this program feeds it (no sign,
no leading whitespace): the longest digit prefix, `none` for `NaN`. -/
def parseIntJS (s : String) : Option Nat :=
  let ds := s.data.takeWhile Char.isDigit
  if ds.isEmpty then none else some (digitsVal ds)

/-- JS `parseFloat(s)` restricted likewise (no sign, no exponent): an optional
digit prefix, an optional `.` with a digit suffix; `none` for `NaN`. -/
def parseFloatJS (s : String) : Option Rat :=
  let intDs := s.data.takeWhile Char.isDigit
  match s.data.drop intDs.length with
  | '.' :: r =>
    let fracDs := r.takeWhile Char.isDigit
    if intDs.isEmpty && fracDs.isEmpty then none
    else some ((digitsVal intDs : Rat) + (digitsVal fracDs : Rat) / ((10 : Rat) ^ fracDs.length))
  | _ => if intDs.isEmpty then none else some ((digitsVal intDs : Rat))

/-- JS `s.replace(/[^0-9.]/g, '')`. -/
def keepDigitsDot (s : String) : String :=
  String.mk (s.data.filter (fun c => c.isDigit || c == '.'))

/-- JS `s.split(sep)` for a one-character separator. -/
def splitOnChar (c : Char) : List Char → List (List Char)
  | [] => [[]]
  | x :: xs =>
    let r := splitOnChar c xs
    if x == c then [] :: r
    else
      match r with
      | [] => [[x]]
      | h :: t => (x :: h) :: t

/-- `s.split('-')[2]`; a missing index yields `""` (which parses to `NaN`,
matching `parseInt(undefined)`). -/
def splitPart2 (s : String) : String :=
  String.mk ((splitOnChar '-' s.data).getD 2 [])

/-- Lexicographic comparison of character lists by code point: the order the
database uses to sort the ASCII order-number strings. -/
def lexLtB : List Char → List Char → Bool
  | [], [] => false
  | [], _ :: _ => true
  | _ :: _, [] => false
  | a :: as, b :: bs => if a < b then true else if b < a then false else lexLtB as bs

/-- String comparison by code points. -/
def strLtB (a b : String) : Bool :=
  lexLtB a.data b.data

/-- Greatest element of a list of strings: the model of
`.sort({orderNumber: -1}).limit(1)`. -/
def maxStr : List String → Option String
  | [] => none
  | s :: t =>
    match maxStr t with
    | none => some s
    | some m => some (if strLtB m s then s else m)

/-- The test `new RegExp("^ORD-" + year + "-").test(s)`: an anchored literal
pattern, i.e. a plain prefix check. -/
def strHasPre (p s : String) : Bool :=
  p.data.isPrefixOf s.data

/-- `generateOrderNumber`: find the lexicographically greatest stored order
number with the current year's `ORD-<year>-` prefix, parse its third
`-`-separated component, add one and left-pad to four digits with zeros.
A failed parse is JS `NaN`, and `String(NaN).padStart(4,'0')` is `"0NaN"`. -/
def generateOrderNumber (db : List Order) (year : Nat) : String :=
  let pre := "ORD-" ++ natToStr year ++ "-"
  match maxStr ((db.map Order.orderNumber).filter (fun s => strHasPre pre s)) with
  | none => pre ++ padStart 4 '0' (natToStr 1)
  | some latest =>
    match parseIntJS (splitPart2 latest) with
    | some lastNumber => pre ++ padStart 4 '0' (natToStr (lastNumber + 1))
    | none => pre ++ padStart 4 '0' "NaN"

/-- The `pricing` object of a create request. -/
structure PricingReq where
  subtotal : Option Rat
  grandTotal : Option Rat
  currency : Option String
  tax : Option Rat
  discount : Option Rat
  shippingCost : Option Rat
  deriving DecidableEq

/-- The `plan` object of a create request; `price` is the string the source
pipes through `toString()` (a numeric JSON value is its decimal spelling). -/
structure PlanReq where
  name : Option String
  price : Option String
  description : Option String
  deriving DecidableEq

/-- The `payment` object of a create request. -/
structure PaymentReq where
  status : Option String
  method : Option String
  transactionId : Option String
  receiverNumber : Option String
  deriving DecidableEq

/-- The body of a create request (`req.body` in `createOrder`). -/
structure CreateReq where
  customer : Option Customer
  items : Option (List OrderItem)
  pricing : Option PricingReq
  payment : Option PaymentReq
  notes : Option String
  plan : Option PlanReq
  planName : Option String
  planPrice : Option String
  paymentMethod : Option String
  transactionId : Option String
  receiverNumber : Option String
  deriving DecidableEq

/-- `parseFloat(p?.toString().replace(/[^0-9.]/g, '') || '0')`: when `p` is
nullish the optional chain yields `undefined`, which `|| '0'` turns into
`"0"`; likewise when the cleaned string is empty. -/
def cleanedPrice (p : Option String) : Option Rat :=
  let s := match p with
    | some v => keepDigitsDot v
    | none => ""
  parseFloatJS (if s = "" then "0" else s)

/-- The three-way pricing resolution of `createOrder`: an explicit `pricing`
object, else a `plan` object, else a flat `planPrice`/`planName` pair; `none`
when all three are missing (the 400 "Pricing information" branch).  Returns
the resolved `pricingData` and the `planData` used for item synthesis. -/
def resolvePricing (req : CreateReq) : Option (Pricing × Option PlanReq) :=
  match req.pricing with
  | some p =>
    some ({ subtotal := if numTruthy p.subtotal then p.subtotal
                        else if numTruthy p.grandTotal then p.grandTotal else some 0,
            grandTotal := if numTruthy p.grandTotal then p.grandTotal else some 0,
            currency := strOrDefault p.currency "USD",
            tax := p.tax, discount := p.discount, shippingCost := p.shippingCost }, none)
  | none =>
    match req.plan with
    | some pl =>
      let price := cleanedPrice pl.price
      some ({ subtotal := price, grandTotal := price, currency := "USD",
              tax := none, discount := none, shippingCost := none }, some pl)
    | none =>
      match req.planPrice with
      | some pp =>
        if pp ≠ "" then
          let price := cleanedPrice (some pp)
          some ({ subtotal := price, grandTotal := price, currency := "USD",
                  tax := none, discount := none, shippingCost := none },
                some { name := req.planName, price := some pp, description := none })
        else none
      | none => none

/-- Line-item resolution: a non-empty `items` array wins, otherwise one item
is synthesised from the plan (`name: planData.name || planName || "Service
Plan"`, quantity 1, unit and total price both the resolved grand total);
`none` is the 400 "At least one order item" branch. -/
def resolveItems (req : CreateReq) (planData : Option PlanReq) (gd : Option Rat) :
    Option (List OrderItem) :=
  let fromPlan : Option (List OrderItem) :=
    match planData with
    | some pd =>
      some [{ name := some (strOrDefault (strOrElse pd.name req.planName) "Service Plan"),
              description := pd.description, quantity := some 1,
              unitPrice := gd, totalPrice := gd, productId := none, serviceId := none }]
    | none => none
  match req.items with
  | some l => if 0 < l.length then some l else fromPlan
  | none => fromPlan

/-- The email test `/^[^\s@]+@[^\s@]+\.[^\s@]+$/.test(s)`: exactly one `@`;
the part before it is non-empty and whitespace-free; the part after it is
non-empty, whitespace-free, and has a `.` that is neither its first nor its
last character (the class `[^\s@]` admits further dots on either side). -/
def emailValid (s : String) : Bool :=
  match splitOnChar '@' s.data with
  | [localPart, domain] =>
    !localPart.isEmpty && !domain.isEmpty &&
    localPart.all (fun c => !c.isWhitespace) &&
    domain.all (fun c => !c.isWhitespace) &&
    ((domain.drop 1).dropLast.contains '.')
  | _ => false

/-- The per-item check of the validation loop:
`!item.name || !item.quantity || !item.unitPrice || !item.totalPrice`. -/
def itemFieldsOk (it : OrderItem) : Bool :=
  strTruthy it.name && numTruthy it.quantity && numTruthy it.unitPrice && numTruthy it.totalPrice

/-- `payment?.transactionId || transactionId`. -/
def txnOf (req : CreateReq) : Option String :=
  strOrElse (match req.payment with | some p => p.transactionId | none => none) req.transactionId

/-- The order document `createOrder` inserts once validation has passed. -/
def mkNewOrder (db : List Order) (req : CreateReq) (customer : Customer)
    (itemsData : List OrderItem) (pricingData : Pricing)
    (newId : Nat) (year : Nat) (now : Nat) : Order :=
  { oid := newId,
    orderNumber := generateOrderNumber db year,
    orderStatus := "pending",
    customer := customer,
    items := itemsData,
    pricing := pricingData,
    payment :=
      { status := some (strOrDefault (match req.payment with | some p => p.status | none => none) "pending"),
        method := strOrElse (match req.payment with | some p => p.method | none => none) req.paymentMethod,
        transactionId := txnOf req,
        receiverNumber := strOrElse (match req.payment with | some p => p.receiverNumber | none => none) req.receiverNumber,
        paidAt := none },
    cancellation := { isCancelled := false, cancelledBy := none, reason := none, cancelledAt := none },
    notes := some (strOrDefault req.notes ""),
    createdAt := now,
    updatedAt := none }

/-- Outcome of `createOrder`: the 201 response order or the error, and the
collection afterwards. -/
structure CreateOut where
  resp : Except ErrResp Order
  db : List Order

/-- `createOrder` (POST /orders).  The checks appear in source order:
customer contact, pricing resolution, positive grand total, item presence,
email format, item fields, duplicate transaction id; each failure returns a
400 before anything is written, and success inserts the new order. -/
def createOrder (db : List Order) (req : CreateReq) (newId : Nat) (year : Nat) (now : Nat) :
    CreateOut :=
  match req.customer with
  | none => ⟨Except.error ⟨400, "Customer information (name, email, phone) is required"⟩, db⟩
  | some customer =>
    if ¬ (strTruthy customer.name && strTruthy customer.email && strTruthy customer.phone) then
      ⟨Except.error ⟨400, "Customer information (name, email, phone) is required"⟩, db⟩
    else
      match resolvePricing req with
      | none => ⟨Except.error ⟨400, "Pricing information (pricing or plan) is required"⟩, db⟩
      | some (pricingData, planData) =>
        if ¬ numTruthy pricingData.grandTotal || pricingData.grandTotal.getD 0 ≤ 0 then
          ⟨Except.error ⟨400, "Grand total must be greater than 0"⟩, db⟩
        else
          match resolveItems req planData pricingData.grandTotal with
          | none => ⟨Except.error ⟨400, "At least one order item or plan is required"⟩, db⟩
          | some itemsData =>
            if ¬ emailValid (customer.email.getD "") then
              ⟨Except.error ⟨400, "Invalid email format"⟩, db⟩
            else if itemsData.any (fun it => ¬ itemFieldsOk it) then
              ⟨Except.error ⟨400, "Each item must have name, quantity, unitPrice, and totalPrice"⟩, db⟩
            else if strTruthy (txnOf req) && db.any (fun o => o.payment.transactionId == txnOf req) then
              ⟨Except.error ⟨400, "Invalid transaction ID. This transaction ID already exists."⟩, db⟩
            else
              let order := mkNewOrder db req customer itemsData pricingData newId year now
              ⟨Except.ok order, db ++ [order]⟩

/-- `$sum: "$pricing.grandTotal"`: a missing field contributes 0. -/
def grandTotalOf (o : Order) : Rat :=
  o.pricing.grandTotal.getD 0

/-- The match `{"payment.status": "paid"}`. -/
def isPaid (o : Order) : Bool :=
  o.payment.status == some "paid"

/-- The dashboard's total revenue aggregation: sum of `pricing.grandTotal`
over all orders with `payment.status = "paid"` (any `orderStatus`). -/
def paidRevenue (db : List Order) : Rat :=
  ((db.filter isPaid).map grandTotalOf).sum

/-- Paid revenue inside a closed `createdAt` window (`$gte`/`$lte`). -/
def paidRevenueBetween (db : List Order) (s e : Nat) : Rat :=
  ((db.filter (fun o => isPaid o && decide (s ≤ o.createdAt) && decide (o.createdAt ≤ e))).map
    grandTotalOf).sum

/-- The dashboard growth rate: `(last − prev) / prev × 100` when the previous
month's paid revenue is positive, and `0` otherwise. -/
def growthRate (db : List Order) (ls le ps pe : Nat) : Rat :=
  let lastMonthTotal := paidRevenueBetween db ls le
  let prevMonthTotal := paidRevenueBetween db ps pe
  if 0 < prevMonthTotal then ((lastMonthTotal - prevMonthTotal) / prevMonthTotal) * 100 else 0

/-- JS `Math.round`: round half up. -/
def jsRound (q : Rat) : Int :=
  Int.floor (q + 1 / 2)

/-- JS `Number.prototype.toFixed(1)`: sign taken from the argument, the
absolute value rounded to tenths with ties away from zero. -/
def toFixed1 (q : Rat) : String :=
  let n := (Int.floor (abs q * 10 + 1 / 2)).toNat
  (if q < 0 then "-" else "") ++ natToStr (n / 10) ++ "." ++ natToStr (n % 10)

/-- The reported growth string:
`(growthRate >= 0 ? "+" : "") + growthRate.toFixed(1) + "%"`. -/
def growthStr (db : List Order) (ls le ps pe : Nat) : String :=
  let r := growthRate db ls le ps pe
  (if 0 ≤ r then "+" else "") ++ toFixed1 r ++ "%"

/-- JS `s.toLowerCase()` (character-wise, faithful for the ASCII names the
classifier tests). -/
def lowerStr (s : String) : String :=
  String.mk (s.data.map Char.toLower)

/-- Substring test on character lists. -/
def containsSub (needle : List Char) : List Char → Bool
  | [] => needle.isEmpty
  | c :: t => needle.isPrefixOf (c :: t) || containsSub needle t

/-- JS `s.includes(sub)`-style test used by the category classifier. -/
def strContains (s sub : String) : Bool :=
  containsSub sub.data s.data

/-- `String(item._id)` for the group key: a missing item name is the `null`
group, printed as `"null"`. -/
def itemDisplayName (it : OrderItem) : String :=
  match it.name with
  | some n => n
  | none => "null"

/-- The keyword classifier of the product distribution: bucket 0 is "UI/UX"
("ui", "ux" or "design"), bucket 1 is "App Dev" ("app" or "mobile"), bucket 2
is "Web Dev" (everything else); tested on the lowercased name in this order. -/
def bucketOfName (nm : String) : Nat :=
  let lower := lowerStr nm
  if strContains lower "ui" || strContains lower "ux" || strContains lower "design" then 0
  else if strContains lower "app" || strContains lower "mobile" then 1
  else 2

/-- The `$unwind: "$items"` of the distribution pipeline over paid orders. -/
def paidItems (db : List Order) : List OrderItem :=
  (db.filter isPaid).flatMap Order.items

/-- Total quantity classified into one bucket.  The source first groups the
unwound items by exact name and classifies each group; the classifier depends
only on the name, so classifying item by item yields the same totals. -/
def bucketCount (db : List Order) (b : Nat) : Rat :=
  (((paidItems db).filter (fun it => bucketOfName (itemDisplayName it) == b)).map
    (fun it => it.quantity.getD 0)).sum

/-- `categoryCount["UI/UX"] + categoryCount["Web Dev"] + categoryCount["App Dev"]`. -/
def totalItemsCount (db : List Order) : Rat :=
  bucketCount db 0 + bucketCount db 2 + bucketCount db 1

/-- One percentage of the distribution: the bucket's share of the total,
`Math.round`ed, or the fixed fallback when the (falsy) total is 0. -/
def distPercentage (db : List Order) (b : Nat) (fallback : Int) : Int :=
  if totalItemsCount db ≠ 0 then jsRound (bucketCount db b / totalItemsCount db * 100) else fallback

/-- The `productDistribution` array of the dashboard response. -/
def productDistribution (db : List Order) : List (String × Int) :=
  [("UI/UX", distPercentage db 0 35),
   ("Web Dev", distPercentage db 2 40),
   ("App Dev", distPercentage db 1 25)]

/-- The match of `getOrderStats`' revenue aggregation:
`orderStatus: "completed"` and `payment.status: "paid"`. -/
def isCompletedPaid (o : Order) : Bool :=
  o.orderStatus == "completed" && isPaid o

/-- The revenue aggregation of `getOrderStats`: `pricing.grandTotal` summed
over completed paid orders, grouped by `pricing.currency`. -/
def revenueGroups (db : List Order) : List (String × Rat) :=
  let matched := db.filter isCompletedPaid
  ((matched.map (fun o => o.pricing.currency)).dedup).map
    (fun c => (c, ((matched.filter (fun o => o.pricing.currency == c)).map grandTotalOf).sum))

/-- The combined revenue of all of `getOrderStats`' currency groups. -/
def orderStatsRevenueSum (db : List Order) : Rat :=
  ((revenueGroups db).map Prod.snd).sum

/-- Modelled from the spec and claim C5, for comparison with `createOrder`:
the validation sequence in the order the claim states it, where the per-item
field check (claim step 4) precedes the email-format check (claim step 5).
Every other step matches the source. -/
def claimedValidationOrder (db : List Order) (req : CreateReq) : Option String :=
  match req.customer with
  | none => some "Customer information (name, email, phone) is required"
  | some customer =>
    if ¬ (strTruthy customer.name && strTruthy customer.email && strTruthy customer.phone) then
      some "Customer information (name, email, phone) is required"
    else
      match resolvePricing req with
      | none => some "Pricing information (pricing or plan) is required"
      | some (pricingData, planData) =>
        if ¬ numTruthy pricingData.grandTotal || pricingData.grandTotal.getD 0 ≤ 0 then
          some "Grand total must be greater than 0"
        else
          match resolveItems req planData pricingData.grandTotal with
          | none => some "At least one order item or plan is required"
          | some itemsData =>
            if itemsData.any (fun it => ¬ itemFieldsOk it) then
              some "Each item must have name, quantity, unitPrice, and totalPrice"
            else if ¬ emailValid (customer.email.getD "") then
              some "Invalid email format"
            else if strTruthy (txnOf req) && db.any (fun o => o.payment.transactionId == txnOf req) then
              some "Invalid transaction ID. This transaction ID already exists."
            else none

/-- The validation sequence of `createOrder` in source order (email before
the per-item field check), as a standalone first-error function. -/
def createValidate (db : List Order) (req : CreateReq) : Option String :=
  match req.customer with
  | none => some "Customer information (name, email, phone) is required"
  | some customer =>
    if ¬ (strTruthy customer.name && strTruthy customer.email && strTruthy customer.phone) then
      some "Customer information (name, email, phone) is required"
    else
      match resolvePricing req with
      | none => some "Pricing information (pricing or plan) is required"
      | some (pricingData, planData) =>
        if ¬ numTruthy pricingData.grandTotal || pricingData.grandTotal.getD 0 ≤ 0 then
          some "Grand total must be greater than 0"
        else
          match resolveItems req planData pricingData.grandTotal with
          | none => some "At least one order item or plan is required"
          | some itemsData =>
            if ¬ emailValid (customer.email.getD "") then
              some "Invalid email format"
            else if itemsData.any (fun it => ¬ itemFieldsOk it) then
              some "Each item must have name, quantity, unitPrice, and totalPrice"
            else if strTruthy (txnOf req) && db.any (fun o => o.payment.transactionId == txnOf req) then
              some "Invalid transaction ID. This transaction ID already exists."
            else none

/-- The inserted order as a function of the request alone (defined exactly
when validation can reach the insert). -/
def newOrderOf (db : List Order) (req : CreateReq) (newId : Nat) (year : Nat) (now : Nat) :
    Option Order :=
  match req.customer, resolvePricing req with
  | some customer, some (pricingData, planData) =>
    match resolveItems req planData pricingData.grandTotal with
    | some itemsData => some (mkNewOrder db req customer itemsData pricingData newId year now)
    | none => none
  | _, _ => none

/-- Sample customer used by the concrete witnesses below. -/
def custAlice : Customer :=
  { name := some "Alice", email := some "alice@example.com", phone := some "123",
    address := none, customerId := some "alice-uid" }

/-- Sample line item. -/
def item1 : OrderItem :=
  { name := some "Website", description := none, quantity := some 1,
    unitPrice := some 100, totalPrice := some 100, productId := none, serviceId := none }

/-- Sample paid payment record. -/
def payPaid : Payment :=
  { status := some "paid", method := none, transactionId := none,
    receiverNumber := none, paidAt := none }

/-- Sample pending payment record. -/
def payPending : Payment :=
  { status := some "pending", method := none, transactionId := none,
    receiverNumber := none, paidAt := none }

/-- Not-cancelled cancellation record. -/
def noCancel : Cancellation :=
  { isCancelled := false, cancelledBy := none, reason := none, cancelledAt := none }

/-- Cancelled cancellation record. -/
def yesCancel : Cancellation :=
  { isCancelled := true, cancelledBy := some "user", reason := some "changed my mind",
    cancelledAt := some 1 }

/-- Sample USD pricing with the given grand total. -/
def priceUSD (g : Rat) : Pricing :=
  { subtotal := some g, grandTotal := some g, currency := "USD",
    tax := none, discount := none, shippingCost := none }

/-- Sample order document builder. -/
def mkOrd (i : Nat) (num : String) (st : String) (pay : Payment) (can : Cancellation)
    (g : Rat) : Order :=
  { oid := i, orderNumber := num, orderStatus := st, customer := custAlice,
    items := [item1], pricing := priceUSD g, payment := pay, cancellation := can,
    notes := some "", createdAt := 0, updatedAt := none }

/-- The cancelled order of the C1 witness. -/
def ordC1 : Order :=
  mkOrd 1 "ORD-2025-0001" "cancelled" payPending yesCancel 100

/-- The stored order of the C9 witness. -/
def ordC9 : Order :=
  mkOrd 1 "ORD-2025-0001" "pending" payPending noCancel 100

/-- A hostile update body that tries to overwrite every protected field
through its exact top-level key (no dotted paths). -/
def bodyC9 : UpdateBody :=
  { idField := some 99, orderNumber := some "ORD-9999-9999", createdAt := some 77,
    orderStatus := some "completed", cancellation := some yesCancel,
    customer := none, items := none, pricing := some (priceUSD 5),
    payment := none, notes := some "updated",
    cancellationDotIsCancelled := none, cancellationDotCancelledBy := none,
    cancellationDotReason := none, cancellationDotCancelledAt := none }

/-- A body whose single key is the dotted path `"cancellation.isCancelled"`,
which the exact-key strip of `updateOrder` does not delete. -/
def bodyDotted : UpdateBody :=
  { idField := none, orderNumber := none, createdAt := none,
    orderStatus := none, cancellation := none,
    customer := none, items := none, pricing := none,
    payment := none, notes := none,
    cancellationDotIsCancelled := some true, cancellationDotCancelledBy := none,
    cancellationDotReason := none, cancellationDotCancelledAt := none }

/-- The order as stored after the C9 witness call: pricing and notes follow
the body, everything protected is intact. -/
def ordC9post : Order :=
  { ordC9 with pricing := priceUSD 5, notes := some "updated", updatedAt := some 5 }

/-- A pending order owned by Alice, target of the C2 counterexample. -/
def ordC2 : Order :=
  mkOrd 1 "ORD-2025-0002" "pending" payPending noCancel 100

/-- An authenticated non-administrative caller who does not own `ordC2`. -/
def mallory : UserCtx :=
  { role := some "user", uid := some "mallory-uid" }

/-- A completed, not cancelled order, target of the C3 counterexample. -/
def ordC3 : Order :=
  mkOrd 1 "ORD-2025-0003" "completed" payPaid noCancel 100

/-- A customer whose email does not match the email pattern. -/
def custBob : Customer :=
  { name := some "Bob", email := some "not-an-email", phone := some "555",
    address := none, customerId := none }

/-- A line item lacking its `totalPrice`. -/
def itemNoTotal : OrderItem :=
  { name := some "Website", description := none, quantity := some 1,
    unitPrice := some 50, totalPrice := none, productId := none, serviceId := none }

/-- A request pricing object with grand total 50. -/
def priceReq50 : PricingReq :=
  { subtotal := some 50, grandTotal := some 50, currency := some "USD",
    tax := none, discount := none, shippingCost := none }

/-- A create request whose email is invalid AND whose only line item is
missing its `totalPrice`: the two checks that C5 orders differently both
fail. -/
def reqC5 : CreateReq :=
  { customer := some custBob, items := some [itemNoTotal], pricing := some priceReq50,
    payment := none, notes := none, plan := none, planName := none, planPrice := none,
    paymentMethod := none, transactionId := none, receiverNumber := none }

/-- A request pricing object with a negative grand total. -/
def priceReqNeg : PricingReq :=
  { subtotal := none, grandTotal := some (-5), currency := some "USD",
    tax := none, discount := none, shippingCost := none }

/-- A create request (valid customer and items) whose explicit pricing has a
negative grand total. -/
def reqC6 : CreateReq :=
  { customer := some custAlice, items := some [item1], pricing := some priceReqNeg,
    payment := none, notes := none, plan := none, planName := none, planPrice := none,
    paymentMethod := none, transactionId := none, receiverNumber := none }

/-- Orders for the positive-baseline instance of C7: 25 paid in the baseline
window, 50 paid in the last-month window. -/
def db7 : List Order :=
  [mkOrd 1 "ORD-2025-0001" "pending" payPaid noCancel 25,
   { mkOrd 2 "ORD-2025-0002" "pending" payPaid noCancel 50 with createdAt := 10 }]

/-- An item classified into the "UI/UX" bucket, quantity 2. -/
def itemUI : OrderItem :=
  { name := some "UI design", description := none, quantity := some 2,
    unitPrice := some 10, totalPrice := some 20, productId := none, serviceId := none }

/-- An item classified into the "App Dev" bucket, quantity 1. -/
def itemApp : OrderItem :=
  { name := some "Mobile app", description := none, quantity := some 1,
    unitPrice := some 10, totalPrice := some 10, productId := none, serviceId := none }

/-- An item classified into the "Web Dev" bucket, quantity 1. -/
def itemWeb : OrderItem :=
  { name := some "Web portal", description := none, quantity := some 1,
    unitPrice := some 10, totalPrice := some 10, productId := none, serviceId := none }

/-- A paid order carrying the three items above. -/
def db8 : List Order :=
  [{ mkOrd 1 "ORD-2025-0004" "pending" payPaid noCancel 40 with
      items := [itemUI, itemApp, itemWeb] }]

/-- The revenue the dashboard counts but `getOrderStats` does not: paid
orders whose status is not `completed`. -/
def extraRevenue (db : List Order) : Rat :=
  ((db.filter (fun o => isPaid o && !(o.orderStatus == "completed"))).map grandTotalOf).sum

/-- A paid, not completed order with a positive grand total. -/
def ordPos : Order :=
  mkOrd 1 "ORD-2025-0005" "pending" payPaid noCancel 5

/-- A paid, not completed order carrying a negative grand total (reachable
because `updateOrder` applies a supplied `pricing` object unchecked). -/
def ordNeg : Order :=
  mkOrd 2 "ORD-2025-0006" "pending" payPaid noCancel (-10)

/-- The stored state of the C10 counterexample. -/
def dbC10 : List Order :=
  [ordPos, ordNeg]

/-- A completed paid order worth 7. -/
def ordDone : Order :=
  mkOrd 3 "ORD-2025-0007" "completed" payPaid noCancel 7

/-- The stored state of the C10 witness: one completed paid order (7) and
one pending paid order (5). -/
def dbW10 : List Order :=
  [ordDone, ordPos]

/-- The order-number string `ORD-<year>-<seq padded to 4>` that
`generateOrderNumber` builds. -/
def mkON (year s : Nat) : String :=
  "ORD-" ++ natToStr year ++ "-" ++ padStart 4 '0' (natToStr s)

/-- The four digit characters of a number below 10000, most significant
first. -/
def d4 (n : Nat) : List Char :=
  [Nat.digitChar (n / 1000 % 10), Nat.digitChar (n / 100 % 10),
   Nat.digitChar (n / 10 % 10), Nat.digitChar (n % 10)]

/-- A stored order numbered `ORD-2025-9999`. -/
def ordNum9999 : Order :=
  mkOrd 1 "ORD-2025-9999" "pending" payPending noCancel 10

/-- A stored order numbered `ORD-2025-10000` (five-digit sequence, as the
generator itself produces after 9999). -/
def ordNum10000 : Order :=
  mkOrd 2 "ORD-2025-10000" "pending" payPending noCancel 10

/-- The stored state of the C4 counterexample. -/
def dbC4 : List Order :=
  [ordNum9999, ordNum10000]

/-- A plain valid create request used against `dbC4`. -/
def reqC4 : CreateReq :=
  { customer := some custAlice, items := some [item1], pricing := some priceReq50,
    payment := none, notes := none, plan := none, planName := none, planPrice := none,
    paymentMethod := none, transactionId := none, receiverNumber := none }

/-- The order number carried by a successful create response. -/
def respOrderNumber : Except ErrResp Order → Option String
  | Except.ok o => some o.orderNumber
  | Except.error _ => none

/-- An order of the 2025 sequence number 7. -/
def ordNum0007 : Order :=
  mkOrd 1 "ORD-2025-0007" "pending" payPending noCancel 10

/-- An order whose number carries no `ORD-2025-` prefix. -/
def ordNumOther : Order :=
  mkOrd 2 "XYZ-1" "pending" payPending noCancel 10

/-- The stored state of the C4 witness. -/
def dbW4 : List Order :=
  [ordNum0007, ordNumOther]

theorem natDigitsAux_fuel : ∀ (f1 : Nat) (n : Nat) (f2 : Nat), n < f1 → n < f2 →
    natDigitsAux f1 n = natDigitsAux f2 n := by
  intro f1
  induction f1 with
  | zero => intro n f2 h; omega
  | succ f ih =>
    intro n f2 h1 h2
    cases f2 with
    | zero => omega
    | succ f2' =>
      by_cases h : n < 10
      · simp [natDigitsAux, h]
      · have hd : n / 10 < f := by omega
        have hd2 : n / 10 < f2' := by omega
        simp only [natDigitsAux, if_neg h]
        rw [ih (n / 10) f2' hd hd2]

theorem natDigits_lt10 (n : Nat) (h : n < 10) : natDigits n = [Nat.digitChar n] := by
  simp [natDigits, natDigitsAux, h]

theorem natDigits_ge10 (n : Nat) (h : 10 ≤ n) :
    natDigits n = natDigits (n / 10) ++ [Nat.digitChar (n % 10)] := by
  rw [show natDigits n =
      (if n < 10 then [Nat.digitChar n]
       else natDigitsAux n (n / 10) ++ [Nat.digitChar (n % 10)]) from rfl]
  rw [if_neg (by omega : ¬ n < 10)]
  rw [natDigitsAux_fuel n (n / 10) (n / 10 + 1) (by omega) (by omega)]
  rfl

theorem findOrder_setOrder (db : List Order) (id : Nat) (f : Order → Order)
    (hf : ∀ o, (f o).oid = o.oid) :
    findOrder (setOrder db id f) id = (findOrder db id).map f := by
  induction db with
  | nil => simp [findOrder, setOrder]
  | cons o t ih =>
    by_cases h : o.oid == id
    · have hfo : ((f o).oid == id) = true := by
        rw [hf o]; exact h
      simp only [findOrder, setOrder, if_pos h, List.find?, hfo, h]
      rfl
    · simp only [findOrder, setOrder, if_neg h, List.find?, Bool.of_not_eq_true h]
      exact ih

/-- C1: for an order whose `cancellation.isCancelled` is true, every
operation leaves `orderStatus` at `"cancelled"`: a status update to any
target other than `"cancelled"` fails with a 400 (with the invalid-transition
message whenever the target is one of the valid statuses, target
`"cancelled"` being permitted and leaving the status `"cancelled"`),
a general update fails with the 400 terminal-state error, a second
cancellation fails with the 400 already-cancelled error, and each failing
call returns the collection unchanged. -/
theorem cancelled_order_is_frozen
    (db : List Order) (id : Nat) (o : Order) (now : Nat)
    (hfind : findOrder db id = some o)
    (hc : o.cancellation.isCancelled = true) :
    (∀ s, s ≠ "cancelled" →
      (updateOrderStatus db id s now).db = db ∧
      ∃ e, (updateOrderStatus db id s now).resp = Except.error e ∧ e.status = 400) ∧
    (∀ s, validStatuses.contains s = true → s ≠ "cancelled" →
      (updateOrderStatus db id s now).resp =
        Except.error ⟨400, "Cannot change status of a cancelled order"⟩) ∧
    (∀ o', findOrder (updateOrderStatus db id "cancelled" now).db id = some o' →
      o'.orderStatus = "cancelled") ∧
    (∀ body, body.isEmpty = false →
      (updateOrder db id body now).db = db ∧
      (updateOrder db id body now).resp =
        Except.error ⟨400, "Cannot update completed or cancelled orders"⟩) ∧
    (∀ user reason, (cancelOrder db id user reason now).db = db ∧
      (cancelOrder db id user reason now).resp =
        Except.error ⟨400, "Order is already cancelled"⟩) := by
  have eempty : updateOrderStatus db id "" now =
      ⟨Except.error ⟨400, "Order status is required"⟩, db⟩ := by
    simp [updateOrderStatus]
  have estep : ∀ s, s ≠ "" → validStatuses.contains s = true → s ≠ "cancelled" →
      updateOrderStatus db id s now =
        ⟨Except.error ⟨400, "Cannot change status of a cancelled order"⟩, db⟩ := by
    intro s h1 h2 hs
    simp only [updateOrderStatus]
    rw [if_neg h1, if_neg (by simpa using h2), hfind]
    simp only
    rw [if_pos (by simp [hc, hs])]
  have einvalid : ∀ s, s ≠ "" → ¬ validStatuses.contains s = true →
      updateOrderStatus db id s now =
        ⟨Except.error ⟨400,
          "Invalid order status. Must be one of: pending, confirmed, processing, completed, cancelled"⟩, db⟩ := by
    intro s h1 h2
    simp only [updateOrderStatus]
    rw [if_neg h1, if_pos (by simpa using h2)]
  have ecancel : updateOrderStatus db id "cancelled" now =
      ⟨Except.ok (findOrder
          (setOrder db id fun o => { o with orderStatus := "cancelled", updatedAt := some now }) id),
        setOrder db id fun o => { o with orderStatus := "cancelled", updatedAt := some now }⟩ := by
    simp only [updateOrderStatus]
    rw [if_neg (by decide), if_neg (by decide), hfind]
    simp only
    rw [if_neg (by simp [hc])]
  refine ⟨?_, ?_, ?_, ?_, ?_⟩
  · intro s hs
    by_cases h1 : s = ""
    · rw [h1, eempty]
      exact ⟨rfl, ⟨400, "Order status is required"⟩, rfl, rfl⟩
    · by_cases h2 : validStatuses.contains s
      · rw [estep s h1 h2 hs]
        exact ⟨rfl, ⟨400, "Cannot change status of a cancelled order"⟩, rfl, rfl⟩
      · rw [einvalid s h1 h2]
        exact ⟨rfl,
          ⟨400, "Invalid order status. Must be one of: pending, confirmed, processing, completed, cancelled"⟩,
          rfl, rfl⟩
  · intro s h2 hs
    have h1 : s ≠ "" := by
      intro h
      rw [h] at h2
      simp [validStatuses] at h2
    rw [estep s h1 h2 hs]
  · intro o' h
    rw [ecancel] at h
    simp only at h
    rw [findOrder_setOrder db id
      (fun o => { o with orderStatus := "cancelled", updatedAt := some now })
      (fun o => rfl), hfind] at h
    simp only [Option.map_some', Option.some.injEq] at h
    subst h
    rfl
  · intro body hb
    refine ⟨?_, ?_⟩ <;> simp [updateOrder, hb, hfind, hc]
  · intro user reason
    refine ⟨?_, ?_⟩ <;> simp [cancelOrder, hfind, hc]

/-- Concrete instance of C1: on a one-order collection holding a cancelled
order, a status update to `"processing"` and a second cancellation both fail
as the theorem states. -/
theorem cancelled_order_is_frozen_witness :
    findOrder [ordC1] 1 = some ordC1 ∧
    ordC1.cancellation.isCancelled = true ∧
    (updateOrderStatus [ordC1] 1 "processing" 5).resp =
      Except.error ⟨400, "Cannot change status of a cancelled order"⟩ ∧
    (cancelOrder [ordC1] 1 (some ⟨some "user", some "alice-uid"⟩) none 5).resp =
      Except.error ⟨400, "Order is already cancelled"⟩ :=
  ⟨rfl, rfl,
    (cancelled_order_is_frozen [ordC1] 1 ordC1 5 rfl rfl).2.1 "processing" (by decide)
      (by decide),
    ((cancelled_order_is_frozen [ordC1] 1 ordC1 5 rfl rfl).2.2.2.2
      (some ⟨some "user", some "alice-uid"⟩) none).2⟩

/-- Counterexample to C9 as stated: a body whose single key is the MongoDB
dotted path `"cancellation.isCancelled": true` survives the exact-key strip
(the source deletes only the key `cancellation` itself), and the `$set`
flips the protected cancellation flag of a stored pending order — so it is
not the case that the stored `cancellation` is unchanged whatever the
request body contains. -/
theorem updateOrder_dotted_path_mutates_cancellation :
    ordC9.cancellation.isCancelled = false ∧
    (findOrder (updateOrder [ordC9] 1 bodyDotted 5).db 1).map
      (fun o => o.cancellation.isCancelled) = some true ∧
    (findOrder (updateOrder [ordC9] 1 bodyDotted 5).db 1).map Order.cancellation ≠
      some ordC9.cancellation := by
  refine ⟨rfl, rfl, ?_⟩
  decide

/-- C9 amended: whatever the body of `updateOrder` contains, the targeted
stored order keeps its `_id`, `orderNumber`, `createdAt` and `orderStatus`
(those exact keys are stripped, and a dotted path through one of these
scalar fields makes the driver fail the update without writing); the
`cancellation` sub-document is likewise kept whenever the body carries no
dotted-path key into it, but a `cancellation.*` key survives the exact-key
strip and is applied.  Otherwise the order is either untouched (an error
branch) or its remaining updatable fields come from the body where supplied,
with `updatedAt` stamped. -/
theorem updateOrder_preserves_protected_fields
    (db : List Order) (id : Nat) (body : UpdateBody) (now : Nat) (o : Order)
    (hfind : findOrder db id = some o) :
    ∀ o', findOrder (updateOrder db id body now).db id = some o' →
      o'.oid = o.oid ∧ o'.orderNumber = o.orderNumber ∧ o'.createdAt = o.createdAt ∧
      o'.orderStatus = o.orderStatus ∧
      ((body.cancellationDotIsCancelled = none ∧ body.cancellationDotCancelledBy = none ∧
        body.cancellationDotReason = none ∧ body.cancellationDotCancelledAt = none) →
        o'.cancellation = o.cancellation) ∧
      (o' = o ∨
        (o'.customer = body.customer.getD o.customer ∧
         o'.items = body.items.getD o.items ∧
         o'.pricing = body.pricing.getD o.pricing ∧
         o'.payment = body.payment.getD o.payment ∧
         o'.cancellation.isCancelled =
           body.cancellationDotIsCancelled.getD o.cancellation.isCancelled ∧
         o'.updatedAt = some now)) := by
  intro o' h
  unfold updateOrder at h
  by_cases hb : body.isEmpty
  · rw [if_pos hb] at h
    simp only at h
    rw [hfind] at h
    cases h
    exact ⟨rfl, rfl, rfl, rfl, fun _ => rfl, Or.inl rfl⟩
  · rw [if_neg hb, hfind] at h
    simp only at h
    by_cases hg : (o.orderStatus == "completed" || o.cancellation.isCancelled) = true
    · rw [if_pos hg] at h
      simp only at h
      rw [hfind] at h
      cases h
      exact ⟨rfl, rfl, rfl, rfl, fun _ => rfl, Or.inl rfl⟩
    · rw [if_neg hg] at h
      simp only at h
      rw [findOrder_setOrder db id
        (fun o =>
          { o with
            customer := body.customer.getD o.customer,
            items := body.items.getD o.items,
            pricing := body.pricing.getD o.pricing,
            payment := body.payment.getD o.payment,
            notes := match body.notes with
              | some n => some n
              | none => o.notes,
            cancellation :=
              { isCancelled := body.cancellationDotIsCancelled.getD o.cancellation.isCancelled,
                cancelledBy := match body.cancellationDotCancelledBy with
                  | some v => some v
                  | none => o.cancellation.cancelledBy,
                reason := match body.cancellationDotReason with
                  | some v => some v
                  | none => o.cancellation.reason,
                cancelledAt := match body.cancellationDotCancelledAt with
                  | some v => some v
                  | none => o.cancellation.cancelledAt },
            updatedAt := some now })
        (fun o => rfl), hfind] at h
      simp only [Option.map_some', Option.some.injEq] at h
      subst h
      refine ⟨rfl, rfl, rfl, rfl, ?_, Or.inr ⟨rfl, rfl, rfl, rfl, rfl, rfl⟩⟩
      rintro ⟨h1, h2, h3, h4⟩
      simp only [h1, h2, h3, h4, Option.getD_none]

/-- Concrete instance of the amended C9: the hostile body (exact protected
keys plus pricing and notes, no dotted paths) changes pricing and notes but
leaves `orderNumber`, `orderStatus`, `createdAt` and `cancellation`
untouched. -/
theorem updateOrder_preserves_protected_fields_witness :
    findOrder (updateOrder [ordC9] 1 bodyC9 5).db 1 = some ordC9post ∧
    ordC9post.orderStatus = ordC9.orderStatus ∧
    ordC9post.orderNumber = ordC9.orderNumber ∧
    ordC9post.cancellation = ordC9.cancellation ∧
    ordC9post.createdAt = ordC9.createdAt :=
  ⟨rfl,
    (updateOrder_preserves_protected_fields [ordC9] 1 bodyC9 5 ordC9 rfl ordC9post rfl).2.2.2.1,
    (updateOrder_preserves_protected_fields [ordC9] 1 bodyC9 5 ordC9 rfl ordC9post rfl).2.1,
    (updateOrder_preserves_protected_fields [ordC9] 1 bodyC9 5 ordC9 rfl ordC9post rfl).2.2.2.2.1
      ⟨rfl, rfl, rfl, rfl⟩,
    (updateOrder_preserves_protected_fields [ordC9] 1 bodyC9 5 ordC9 rfl ordC9post rfl).2.2.1⟩

theorem findOrder_setOrder_some (db : List Order) (id : Nat) (f : Order → Order)
    (o o' : Order) (hfind : findOrder db id = some o)
    (h : findOrder (setOrder db id f) id = some o')
    (hf : ∀ x, (f x).oid = x.oid) : o' = f o := by
  rw [findOrder_setOrder db id f hf, hfind] at h
  simp only [Option.map_some', Option.some.injEq] at h
  exact h.symm

/-- Counterexample to C2 as stated: a non-administrative caller who is not
the order's customer cancels another user's pending order, and the call
succeeds (the order is stored as cancelled with `cancelledBy = "system"`)
instead of failing with a 403. -/
theorem cancelOrder_nonowner_succeeds :
    isAdminOf (some mallory) = false ∧
    isOwnerOf (some mallory) ordC2 = false ∧
    ordC2.orderStatus = "pending" ∧
    (cancelOrder [ordC2] 1 (some mallory) none 7).resp ≠
      Except.error ⟨403, "You can only cancel pending or confirmed orders"⟩ ∧
    (findOrder (cancelOrder [ordC2] 1 (some mallory) none 7).db 1).map Order.orderStatus =
      some "cancelled" ∧
    (findOrder (cancelOrder [ordC2] 1 (some mallory) none 7).db 1).map
      (fun o => o.cancellation.cancelledBy) = some (some "system") := by
  refine ⟨rfl, rfl, rfl, ?_, rfl, rfl⟩
  decide

/-- C2 amended: for a cancel request by an authenticated non-administrative
caller on an existing, not-yet-cancelled order, the outcome depends only on
the order's status, not on ownership: when `orderStatus` is neither
`pending`, `confirmed` nor `completed` the call fails with the 403 guard and
the collection is unchanged; when it is `pending` or `confirmed` the
cancellation succeeds for owner and non-owner alike, and ownership only
selects the recorded `cancelledBy` (`"user"` for the owner, `"system"`
otherwise). -/
theorem cancelOrder_nonadmin_rules
    (db : List Order) (id : Nat) (o : Order) (user : Option UserCtx)
    (reason : Option String) (now : Nat)
    (hfind : findOrder db id = some o)
    (hnc : o.cancellation.isCancelled = false)
    (hadmin : isAdminOf user = false) :
    (o.orderStatus ≠ "pending" → o.orderStatus ≠ "confirmed" → o.orderStatus ≠ "completed" →
      (cancelOrder db id user reason now).db = db ∧
      (cancelOrder db id user reason now).resp =
        Except.error ⟨403, "You can only cancel pending or confirmed orders"⟩) ∧
    ((o.orderStatus = "pending" ∨ o.orderStatus = "confirmed") →
      ∀ o', findOrder (cancelOrder db id user reason now).db id = some o' →
        o'.orderStatus = "cancelled" ∧
        o'.cancellation.isCancelled = true ∧
        o'.cancellation.cancelledBy =
          some (if isOwnerOf user o then "user" else "system")) := by
  constructor
  · intro hp hcf hcp
    simp only [cancelOrder]
    rw [hfind]
    simp only
    rw [if_neg (by simp [hnc]), if_neg (by simp [hcp]),
      if_pos (by simp [hadmin, hp, hcf])]
    exact ⟨rfl, rfl⟩
  · intro hst o' h
    simp only [cancelOrder] at h
    rw [hfind] at h
    simp only at h
    rw [if_neg (by simp [hnc])] at h
    rw [if_neg (by rcases hst with h1 | h1 <;> simp [h1])] at h
    rw [if_neg (by rcases hst with h1 | h1 <;> simp [h1])] at h
    simp only at h
    have ho' := findOrder_setOrder_some db id _ o o' hfind h (fun x => rfl)
    subst ho'
    refine ⟨rfl, rfl, ?_⟩
    simp [hadmin]

/-- Concrete instance of the amended C2: the same non-owner call as the
counterexample, analysed through the theorem. -/
theorem cancelOrder_nonadmin_rules_witness :
    findOrder (cancelOrder [ordC2] 1 (some mallory) none 7).db 1 =
      some { ordC2 with
        orderStatus := "cancelled",
        cancellation :=
          { isCancelled := true, cancelledBy := some "system",
            reason := some "No reason provided", cancelledAt := some 7 },
        updatedAt := some 7 } ∧
    ({ ordC2 with
        orderStatus := "cancelled",
        cancellation :=
          { isCancelled := true, cancelledBy := some "system",
            reason := some "No reason provided", cancelledAt := some 7 },
        updatedAt := some 7 } : Order).cancellation.cancelledBy =
      some (if isOwnerOf (some mallory) ordC2 then "user" else "system") :=
  ⟨rfl,
    ((cancelOrder_nonadmin_rules [ordC2] 1 ordC2 (some mallory) none 7 rfl rfl rfl).2
      (Or.inl rfl) _ rfl).2.2⟩

/-- Counterexample to C3 as stated: `updateOrderStatus` is not blocked on a
completed (not cancelled) order — moving it back to `"processing"` succeeds
and the stored status changes. -/
theorem completed_status_update_succeeds :
    ordC3.orderStatus = "completed" ∧
    ordC3.cancellation.isCancelled = false ∧
    (updateOrderStatus [ordC3] 1 "processing" 9).resp =
      Except.ok (some { ordC3 with orderStatus := "processing", updatedAt := some 9 }) ∧
    (findOrder (updateOrderStatus [ordC3] 1 "processing" 9).db 1).map Order.orderStatus =
      some "processing" :=
  ⟨rfl, rfl, rfl, rfl⟩

/-- C3 amended: a completed, not cancelled order is immutable through
`updateOrder` — any non-empty general update fails with the 400
terminal-state error leaving the collection unchanged — but it is not
immutable through `updateOrderStatus`, which applies any valid target status
to it. -/
theorem completed_order_update_rules
    (db : List Order) (id : Nat) (o : Order) (now : Nat)
    (hfind : findOrder db id = some o)
    (hcomp : o.orderStatus = "completed")
    (hnc : o.cancellation.isCancelled = false) :
    (∀ body, body.isEmpty = false →
      (updateOrder db id body now).db = db ∧
      (updateOrder db id body now).resp =
        Except.error ⟨400, "Cannot update completed or cancelled orders"⟩) ∧
    (∀ s, validStatuses.contains s = true →
      ∀ o', findOrder (updateOrderStatus db id s now).db id = some o' →
        o'.orderStatus = s) := by
  constructor
  · intro body hb
    refine ⟨?_, ?_⟩ <;> simp [updateOrder, hb, hfind, hcomp]
  · intro s hs o' h
    have h1 : s ≠ "" := by
      intro e
      rw [e] at hs
      simp [validStatuses] at hs
    simp only [updateOrderStatus] at h
    rw [if_neg h1, if_neg (by simpa using hs)] at h
    rw [hfind] at h
    simp only at h
    rw [if_neg (by simp [hnc])] at h
    simp only at h
    have ho' := findOrder_setOrder_some db id _ o o' hfind h (fun x => rfl)
    subst ho'
    rfl

/-- Concrete instance of the amended C3: a general update of the completed
order fails with the terminal-state error, while a status update to
`"pending"` goes through. -/
theorem completed_order_update_rules_witness :
    (updateOrder [ordC3] 1 bodyC9 9).resp =
      Except.error ⟨400, "Cannot update completed or cancelled orders"⟩ ∧
    (updateOrder [ordC3] 1 bodyC9 9).db = [ordC3] ∧
    ({ ordC3 with orderStatus := "pending", updatedAt := some 9 } : Order).orderStatus =
      "pending" :=
  ⟨((completed_order_update_rules [ordC3] 1 ordC3 9 rfl rfl rfl).1 bodyC9 (by decide)).2,
    ((completed_order_update_rules [ordC3] 1 ordC3 9 rfl rfl rfl).1 bodyC9 (by decide)).1,
    (completed_order_update_rules [ordC3] 1 ordC3 9 rfl rfl rfl).2 "pending" (by decide) _ rfl⟩

theorem createOrder_eq_validate (db : List Order) (req : CreateReq) (newId year now : Nat) :
    (∀ m, createValidate db req = some m →
      createOrder db req newId year now = ⟨Except.error ⟨400, m⟩, db⟩) ∧
    (createValidate db req = none →
      ∃ o, newOrderOf db req newId year now = some o ∧
        createOrder db req newId year now = ⟨Except.ok o, db ++ [o]⟩) := by
  rcases hc : req.customer with _ | customer
  · refine ⟨fun m hm => ?_, fun hm => ?_⟩
    · simp only [createValidate, hc] at hm
      cases hm
      simp only [createOrder, hc]
    · simp only [createValidate, hc] at hm
      exact Option.noConfusion hm
  · by_cases hcv : ¬ (strTruthy customer.name && strTruthy customer.email && strTruthy customer.phone)
    case pos =>
      refine ⟨fun m hm => ?_, fun hm => ?_⟩
      · simp only [createValidate, hc] at hm
        rw [if_pos hcv] at hm
        cases hm
        simp only [createOrder, hc]
        rw [if_pos hcv]
      · simp only [createValidate, hc] at hm
        rw [if_pos hcv] at hm
        exact Option.noConfusion hm
    case neg =>
      rcases hp : resolvePricing req with _ | ⟨pricingData, planData⟩
      · refine ⟨fun m hm => ?_, fun hm => ?_⟩
        · simp only [createValidate, hc] at hm
          rw [if_neg hcv, hp] at hm
          cases hm
          simp only [createOrder, hc]
          rw [if_neg hcv, hp]
        · simp only [createValidate, hc] at hm
          rw [if_neg hcv, hp] at hm
          exact Option.noConfusion hm
      · by_cases hg : (¬ numTruthy pricingData.grandTotal || pricingData.grandTotal.getD 0 ≤ 0)
        case pos =>
          refine ⟨fun m hm => ?_, fun hm => ?_⟩
          · simp only [createValidate, hc] at hm
            rw [if_neg hcv, hp] at hm
            simp only at hm
            rw [if_pos hg] at hm
            cases hm
            simp only [createOrder, hc]
            rw [if_neg hcv, hp]
            simp only
            rw [if_pos hg]
          · simp only [createValidate, hc] at hm
            rw [if_neg hcv, hp] at hm
            simp only at hm
            rw [if_pos hg] at hm
            exact Option.noConfusion hm
        case neg =>
          rcases hi : resolveItems req planData pricingData.grandTotal with _ | itemsData
          · refine ⟨fun m hm => ?_, fun hm => ?_⟩
            · simp only [createValidate, hc] at hm
              rw [if_neg hcv, hp] at hm
              simp only at hm
              rw [if_neg hg, hi] at hm
              cases hm
              simp only [createOrder, hc]
              rw [if_neg hcv, hp]
              simp only
              rw [if_neg hg, hi]
            · simp only [createValidate, hc] at hm
              rw [if_neg hcv, hp] at hm
              simp only at hm
              rw [if_neg hg, hi] at hm
              exact Option.noConfusion hm
          · by_cases hem : ¬ emailValid (customer.email.getD "")
            case pos =>
              refine ⟨fun m hm => ?_, fun hm => ?_⟩
              · simp only [createValidate, hc] at hm
                rw [if_neg hcv, hp] at hm
                simp only at hm
                rw [if_neg hg, hi] at hm
                simp only at hm
                rw [if_pos hem] at hm
                cases hm
                simp only [createOrder, hc]
                rw [if_neg hcv, hp]
                simp only
                rw [if_neg hg, hi]
                simp only
                rw [if_pos hem]
              · simp only [createValidate, hc] at hm
                rw [if_neg hcv, hp] at hm
                simp only at hm
                rw [if_neg hg, hi] at hm
                simp only at hm
                rw [if_pos hem] at hm
                exact Option.noConfusion hm
            case neg =>
              by_cases hif : (itemsData.any fun it => ¬ itemFieldsOk it)
              case pos =>
                refine ⟨fun m hm => ?_, fun hm => ?_⟩
                · simp only [createValidate, hc] at hm
                  rw [if_neg hcv, hp] at hm
                  simp only at hm
                  rw [if_neg hg, hi] at hm
                  simp only at hm
                  rw [if_neg hem, if_pos hif] at hm
                  cases hm
                  simp only [createOrder, hc]
                  rw [if_neg hcv, hp]
                  simp only
                  rw [if_neg hg, hi]
                  simp only
                  rw [if_neg hem, if_pos hif]
                · simp only [createValidate, hc] at hm
                  rw [if_neg hcv, hp] at hm
                  simp only at hm
                  rw [if_neg hg, hi] at hm
                  simp only at hm
                  rw [if_neg hem, if_pos hif] at hm
                  exact Option.noConfusion hm
              case neg =>
                by_cases ht : (strTruthy (txnOf req) &&
                    db.any fun o => o.payment.transactionId == txnOf req)
                case pos =>
                  refine ⟨fun m hm => ?_, fun hm => ?_⟩
                  · simp only [createValidate, hc] at hm
                    rw [if_neg hcv, hp] at hm
                    simp only at hm
                    rw [if_neg hg, hi] at hm
                    simp only at hm
                    rw [if_neg hem, if_neg hif, if_pos ht] at hm
                    cases hm
                    simp only [createOrder, hc]
                    rw [if_neg hcv, hp]
                    simp only
                    rw [if_neg hg, hi]
                    simp only
                    rw [if_neg hem, if_neg hif, if_pos ht]
                  · simp only [createValidate, hc] at hm
                    rw [if_neg hcv, hp] at hm
                    simp only at hm
                    rw [if_neg hg, hi] at hm
                    simp only at hm
                    rw [if_neg hem, if_neg hif, if_pos ht] at hm
                    exact Option.noConfusion hm
                case neg =>
                  refine ⟨fun m hm => ?_, fun _ => ?_⟩
                  · simp only [createValidate, hc] at hm
                    rw [if_neg hcv, hp] at hm
                    simp only at hm
                    rw [if_neg hg, hi] at hm
                    simp only at hm
                    rw [if_neg hem, if_neg hif, if_neg ht] at hm
                    exact Option.noConfusion hm
                  · refine ⟨mkNewOrder db req customer itemsData pricingData newId year now, ?_, ?_⟩
                    · simp only [newOrderOf, hc, hp, hi]
                    · simp only [createOrder, hc]
                      rw [if_neg hcv, hp]
                      simp only
                      rw [if_neg hg, hi]
                      simp only
                      rw [if_neg hem, if_neg hif, if_neg ht]

/-- Counterexample to C5 as stated: on a request failing both the per-item
field check (claim step 4) and the email check (claim step 5), the source
reports the email error — it tests the email pattern before the item fields,
the reverse of the claim's order. -/
theorem createOrder_checks_email_before_item_fields :
    claimedValidationOrder [] reqC5 =
      some "Each item must have name, quantity, unitPrice, and totalPrice" ∧
    (createOrder [] reqC5 1 2025 0).resp = Except.error ⟨400, "Invalid email format"⟩ ∧
    createValidate [] reqC5 ≠ claimedValidationOrder [] reqC5 := by
  refine ⟨rfl, rfl, ?_⟩
  decide

/-- C5 amended: `createOrder` validates in the source order — customer
contact, pricing resolvable, positive grand total, line-item presence,
email format, per-item fields, duplicate transaction id (email before the
per-item check, the one inversion the counterexample forces) — returning a
400 with the first failing check's message and no mutation, and inserting
the order exactly when every check passes. -/
theorem createOrder_validation_sequence (db : List Order) (req : CreateReq)
    (newId year now : Nat) :
    (∀ m, createValidate db req = some m →
      createOrder db req newId year now = ⟨Except.error ⟨400, m⟩, db⟩) ∧
    (createValidate db req = none →
      ∃ o, createOrder db req newId year now = ⟨Except.ok o, db ++ [o]⟩) := by
  obtain ⟨h1, h2⟩ := createOrder_eq_validate db req newId year now
  exact ⟨h1, fun h => (h2 h).elim (fun o ho => ⟨o, ho.2⟩)⟩

/-- Concrete instance of the amended C5: the mixed-failure request of the
counterexample produces exactly the email error, with the collection
untouched. -/
theorem createOrder_validation_sequence_witness :
    createValidate [] reqC5 = some "Invalid email format" ∧
    createOrder [] reqC5 1 2025 0 = ⟨Except.error ⟨400, "Invalid email format"⟩, []⟩ :=
  ⟨rfl, (createOrder_validation_sequence [] reqC5 1 2025 0).1 "Invalid email format" rfl⟩

/-- C6: whenever the resolved pricing's grand total is missing (`NaN`
included) or non-positive, `createOrder` fails with a 400 validation error
and inserts nothing. -/
theorem createOrder_rejects_nonpositive_grandTotal
    (db : List Order) (req : CreateReq) (newId year now : Nat)
    (pricingData : Pricing) (planData : Option PlanReq)
    (hp : resolvePricing req = some (pricingData, planData))
    (hbad : pricingData.grandTotal = none ∨ ∃ g, pricingData.grandTotal = some g ∧ g ≤ 0) :
    ∃ m, createValidate db req = some m ∧
      createOrder db req newId year now = ⟨Except.error ⟨400, m⟩, db⟩ := by
  rcases hc : req.customer with _ | customer
  · have hv : createValidate db req =
        some "Customer information (name, email, phone) is required" := by
      simp only [createValidate, hc]
    exact ⟨_, hv, (createOrder_eq_validate db req newId year now).1 _ hv⟩
  · by_cases hcv : ¬ (strTruthy customer.name && strTruthy customer.email && strTruthy customer.phone)
    · have hv : createValidate db req =
          some "Customer information (name, email, phone) is required" := by
        simp only [createValidate, hc]
        rw [if_pos hcv]
      exact ⟨_, hv, (createOrder_eq_validate db req newId year now).1 _ hv⟩
    · have hgc : ¬ numTruthy pricingData.grandTotal || pricingData.grandTotal.getD 0 ≤ 0 := by
        rcases hbad with hb | ⟨g, hg1, hg2⟩
        · simp [hb, numTruthy]
        · simp [hg1, hg2]
      have hv : createValidate db req = some "Grand total must be greater than 0" := by
        simp only [createValidate, hc]
        rw [if_neg hcv, hp]
        simp only
        rw [if_pos hgc]
      exact ⟨_, hv, (createOrder_eq_validate db req newId year now).1 _ hv⟩

/-- Concrete instance of C6: a request with `grandTotal = -5` fails with the
grand-total validation error and leaves the (empty) collection empty. -/
theorem createOrder_rejects_nonpositive_grandTotal_witness :
    createOrder [] reqC6 1 2025 0 =
      ⟨Except.error ⟨400, "Grand total must be greater than 0"⟩, []⟩ := by
  obtain ⟨m, hm1, hm2⟩ :=
    createOrder_rejects_nonpositive_grandTotal [] reqC6 1 2025 0 _ none rfl
      (Or.inr ⟨-5, rfl, by norm_num⟩)
  have h := hm1.symm.trans
    (show createValidate [] reqC6 = some "Grand total must be greater than 0" from rfl)
  cases h
  exact hm2

theorem toFixed1_zero : toFixed1 0 = "0.0" := by
  have hf : (⌊(|(0 : Rat)|) * 10 + 1 / 2⌋) = 0 := by norm_num
  simp only [toFixed1, hf]
  decide

/-- C7: when the paid revenue of the baseline month (the month before the
previous one) is zero, the reported growth string is exactly `"+0.0%"`;
when the baseline is positive, the growth rate is
`(last − prev) / prev × 100` and the report prefixes `"+"` exactly when the
rate is non-negative, rendered to one decimal place by `toFixed1`. -/
theorem growth_zero_baseline_and_format (db : List Order) (ls le ps pe : Nat) :
    (paidRevenueBetween db ps pe = 0 → growthStr db ls le ps pe = "+0.0%") ∧
    (0 < paidRevenueBetween db ps pe →
      growthRate db ls le ps pe =
        ((paidRevenueBetween db ls le - paidRevenueBetween db ps pe) /
          paidRevenueBetween db ps pe) * 100 ∧
      growthStr db ls le ps pe =
        (if 0 ≤ growthRate db ls le ps pe then "+" else "") ++
          toFixed1 (growthRate db ls le ps pe) ++ "%") := by
  constructor
  · intro h
    have h0 : growthRate db ls le ps pe = 0 := by
      simp [growthRate, h]
    simp only [growthStr, h0]
    rw [if_pos (le_refl (0 : Rat)), toFixed1_zero]
    rfl
  · intro h
    refine ⟨?_, rfl⟩
    simp [growthRate, h]

/-- Concrete instance of C7: an empty collection has zero baseline and
reports `"+0.0%"`; with baseline 25 and last month 50 the rate is `+100.0%`. -/
theorem growth_zero_baseline_and_format_witness :
    growthStr [] 0 0 0 0 = "+0.0%" ∧
    paidRevenueBetween db7 0 5 = 25 ∧
    growthRate db7 6 15 0 5 = 100 ∧
    growthStr db7 6 15 0 5 = "+100.0%" := by
  have hprev : paidRevenueBetween db7 0 5 = 25 := by
    simp [paidRevenueBetween, db7, mkOrd, payPaid, priceUSD, isPaid, grandTotalOf]
  have hlast : paidRevenueBetween db7 6 15 = 50 := by
    simp [paidRevenueBetween, db7, mkOrd, payPaid, priceUSD, isPaid, grandTotalOf]
  obtain ⟨hrate, hstr⟩ :=
    (growth_zero_baseline_and_format db7 6 15 0 5).2 (by rw [hprev]; norm_num)
  have hrate100 : growthRate db7 6 15 0 5 = 100 := by
    rw [hrate, hprev, hlast]
    norm_num
  refine ⟨(growth_zero_baseline_and_format [] 0 0 0 0).1 rfl, hprev, hrate100, ?_⟩
  rw [hstr, hrate100]
  have hf : (⌊(|(100 : Rat)|) * 10 + 1 / 2⌋) = 1000 := by norm_num
  rw [if_pos (by norm_num : (0 : Rat) ≤ 100)]
  simp only [toFixed1, hf]
  decide

/-- C8: the product distribution reports the fixed 35/40/25 fallback when
the total classified quantity is zero; when it is positive, each percentage
is the bucket's share of the total put through `Math.round`, and the three
percentages sum to 100 ± 1. -/
theorem productDistribution_spec (db : List Order) :
    (totalItemsCount db = 0 →
      productDistribution db = [("UI/UX", 35), ("Web Dev", 40), ("App Dev", 25)]) ∧
    (0 < totalItemsCount db →
      productDistribution db =
        [("UI/UX", jsRound (bucketCount db 0 / totalItemsCount db * 100)),
         ("Web Dev", jsRound (bucketCount db 2 / totalItemsCount db * 100)),
         ("App Dev", jsRound (bucketCount db 1 / totalItemsCount db * 100))] ∧
      99 ≤ jsRound (bucketCount db 0 / totalItemsCount db * 100) +
        jsRound (bucketCount db 2 / totalItemsCount db * 100) +
        jsRound (bucketCount db 1 / totalItemsCount db * 100) ∧
      jsRound (bucketCount db 0 / totalItemsCount db * 100) +
        jsRound (bucketCount db 2 / totalItemsCount db * 100) +
        jsRound (bucketCount db 1 / totalItemsCount db * 100) ≤ 101) := by
  constructor
  · intro h
    simp [productDistribution, distPercentage, h]
  · intro h
    have hT : totalItemsCount db ≠ 0 := ne_of_gt h
    have hsum : bucketCount db 0 / totalItemsCount db * 100 +
        bucketCount db 2 / totalItemsCount db * 100 +
        bucketCount db 1 / totalItemsCount db * 100 = 100 := by
      have hTdef : bucketCount db 0 + bucketCount db 2 + bucketCount db 1 =
          totalItemsCount db := rfl
      field_simp
      linarith
    have u0 : ((jsRound (bucketCount db 0 / totalItemsCount db * 100) : ℤ) : Rat) ≤
        bucketCount db 0 / totalItemsCount db * 100 + 1 / 2 := Int.floor_le _
    have u2 : ((jsRound (bucketCount db 2 / totalItemsCount db * 100) : ℤ) : Rat) ≤
        bucketCount db 2 / totalItemsCount db * 100 + 1 / 2 := Int.floor_le _
    have u1 : ((jsRound (bucketCount db 1 / totalItemsCount db * 100) : ℤ) : Rat) ≤
        bucketCount db 1 / totalItemsCount db * 100 + 1 / 2 := Int.floor_le _
    have l0 : bucketCount db 0 / totalItemsCount db * 100 + 1 / 2 <
        ((jsRound (bucketCount db 0 / totalItemsCount db * 100) : ℤ) : Rat) + 1 :=
      Int.lt_floor_add_one _
    have l2 : bucketCount db 2 / totalItemsCount db * 100 + 1 / 2 <
        ((jsRound (bucketCount db 2 / totalItemsCount db * 100) : ℤ) : Rat) + 1 :=
      Int.lt_floor_add_one _
    have l1 : bucketCount db 1 / totalItemsCount db * 100 + 1 / 2 <
        ((jsRound (bucketCount db 1 / totalItemsCount db * 100) : ℤ) : Rat) + 1 :=
      Int.lt_floor_add_one _
    refine ⟨by simp [productDistribution, distPercentage, hT], ?_, ?_⟩
    · have hlow : (98 : ℤ) < jsRound (bucketCount db 0 / totalItemsCount db * 100) +
          jsRound (bucketCount db 2 / totalItemsCount db * 100) +
          jsRound (bucketCount db 1 / totalItemsCount db * 100) := by
        have : (98 : Rat) < ((jsRound (bucketCount db 0 / totalItemsCount db * 100) +
            jsRound (bucketCount db 2 / totalItemsCount db * 100) +
            jsRound (bucketCount db 1 / totalItemsCount db * 100) : ℤ) : Rat) := by
          push_cast
          linarith
        exact_mod_cast this
      omega
    · have hhigh : jsRound (bucketCount db 0 / totalItemsCount db * 100) +
          jsRound (bucketCount db 2 / totalItemsCount db * 100) +
          jsRound (bucketCount db 1 / totalItemsCount db * 100) < (102 : ℤ) := by
        have : ((jsRound (bucketCount db 0 / totalItemsCount db * 100) +
            jsRound (bucketCount db 2 / totalItemsCount db * 100) +
            jsRound (bucketCount db 1 / totalItemsCount db * 100) : ℤ) : Rat) < 102 := by
          push_cast
          linarith
        exact_mod_cast this
      omega

/-- Concrete instance of C8: the empty collection reports the 35/40/25
fallback; with classified quantities 2/1/1 the distribution is 50/25/25,
which sums to 100. -/
theorem productDistribution_spec_witness :
    productDistribution [] = [("UI/UX", 35), ("Web Dev", 40), ("App Dev", 25)] ∧
    totalItemsCount db8 = 4 ∧
    productDistribution db8 = [("UI/UX", 50), ("Web Dev", 25), ("App Dev", 25)] := by
  have hc0 : bucketCount db8 0 = 2 := by
    rw [show bucketCount db8 0 =
        (((paidItems db8).filter (fun it => bucketOfName (itemDisplayName it) == 0)).map
          (fun it => it.quantity.getD 0)).sum from rfl]
    rw [show ((paidItems db8).filter (fun it => bucketOfName (itemDisplayName it) == 0)) =
        [itemUI] from by decide]
    simp [itemUI]
  have hc1 : bucketCount db8 1 = 1 := by
    rw [show bucketCount db8 1 =
        (((paidItems db8).filter (fun it => bucketOfName (itemDisplayName it) == 1)).map
          (fun it => it.quantity.getD 0)).sum from rfl]
    rw [show ((paidItems db8).filter (fun it => bucketOfName (itemDisplayName it) == 1)) =
        [itemApp] from by decide]
    simp [itemApp]
  have hc2 : bucketCount db8 2 = 1 := by
    rw [show bucketCount db8 2 =
        (((paidItems db8).filter (fun it => bucketOfName (itemDisplayName it) == 2)).map
          (fun it => it.quantity.getD 0)).sum from rfl]
    rw [show ((paidItems db8).filter (fun it => bucketOfName (itemDisplayName it) == 2)) =
        [itemWeb] from by decide]
    simp [itemWeb]
  have hT : totalItemsCount db8 = 4 := by
    rw [show totalItemsCount db8 =
      bucketCount db8 0 + bucketCount db8 2 + bucketCount db8 1 from rfl,
      hc0, hc1, hc2]
    norm_num
  obtain ⟨hdist, _, _⟩ := (productDistribution_spec db8).2 (by rw [hT]; norm_num)
  refine ⟨(productDistribution_spec []).1
    (by simp [totalItemsCount, bucketCount, paidItems]), hT, ?_⟩
  rw [hdist, hc0, hc1, hc2, hT]
  have h50 : jsRound ((2 : Rat) / 4 * 100) = 50 := by
    rw [show jsRound ((2 : Rat) / 4 * 100) = ⌊(2 : Rat) / 4 * 100 + 1 / 2⌋ from rfl]
    norm_num
  have h25 : jsRound ((1 : Rat) / 4 * 100) = 25 := by
    rw [show jsRound ((1 : Rat) / 4 * 100) = ⌊(1 : Rat) / 4 * 100 + 1 / 2⌋ from rfl]
    norm_num
  rw [h50, h25]

theorem sum_map_filter_split (p : Order → Bool) (l : List Order) :
    ((l.filter p).map grandTotalOf).sum +
      ((l.filter (fun o => !(p o))).map grandTotalOf).sum = (l.map grandTotalOf).sum := by
  induction l with
  | nil => simp
  | cons o t ih =>
    by_cases hp : p o
    · simp only [List.filter_cons, hp]
      simp only [Bool.not_true, Bool.false_eq_true, if_false, if_true, List.map_cons,
        List.sum_cons]
      linarith
    · simp only [List.filter_cons, Bool.of_not_eq_true hp]
      simp only [Bool.not_false, Bool.false_eq_true, if_false, if_true, List.map_cons,
        List.sum_cons]
      linarith

theorem sum_groups_key (C : List String) :
    ∀ l : List Order, C.Nodup → (∀ o ∈ l, o.pricing.currency ∈ C) →
      ((C.map (fun c =>
        ((l.filter (fun o => o.pricing.currency == c)).map grandTotalOf).sum)).sum)
        = (l.map grandTotalOf).sum := by
  induction C with
  | nil =>
    intro l _ hl
    cases l with
    | nil => simp
    | cons o t => exact absurd (hl o (by simp)) (by simp)
  | cons c C ih =>
    intro l hnd hl
    simp only [List.map_cons, List.sum_cons]
    have hsplit := sum_map_filter_split (fun o => o.pricing.currency == c) l
    have hmap : (C.map (fun c' =>
        ((l.filter (fun o => o.pricing.currency == c')).map grandTotalOf).sum)) =
        (C.map (fun c' =>
        (((l.filter (fun o => !(o.pricing.currency == c))).filter
          (fun o => o.pricing.currency == c')).map grandTotalOf).sum)) := by
      apply List.map_congr_left
      intro c' hc'
      have hcc : c' ≠ c := by
        intro e
        subst e
        exact (List.nodup_cons.mp hnd).1 hc'
      congr 1
      rw [List.filter_filter]
      congr 1
      apply List.filter_congr
      intro o _
      by_cases h : o.pricing.currency = c'
      · simp [h, hcc]
      · simp [h]
    rw [hmap,
      ih (l.filter (fun o => !(o.pricing.currency == c))) (List.nodup_cons.mp hnd).2 ?hmem]
    · linarith
    case hmem =>
      intro o ho
      have h1 := List.mem_filter.mp ho
      have h2 := hl o h1.1
      have h3 : o.pricing.currency ≠ c := by
        simpa using h1.2
      rcases List.mem_cons.mp h2 with he | he
      · exact absurd he h3
      · exact he

theorem orderStatsRevenueSum_eq (db : List Order) :
    orderStatsRevenueSum db = ((db.filter isCompletedPaid).map grandTotalOf).sum := by
  have h := sum_groups_key
    (((db.filter isCompletedPaid).map (fun o => o.pricing.currency)).dedup)
    (db.filter isCompletedPaid) (List.nodup_dedup _)
    (fun o ho => List.mem_dedup.mpr (List.mem_map_of_mem _ ho))
  simp only [orderStatsRevenueSum, revenueGroups, List.map_map]
  simpa [Function.comp] using h

theorem paidRevenue_decomposition (db : List Order) :
    paidRevenue db = orderStatsRevenueSum db + extraRevenue db := by
  rw [orderStatsRevenueSum_eq]
  have hsplit := sum_map_filter_split (fun o => o.orderStatus == "completed") (db.filter isPaid)
  have h1 : (db.filter isPaid).filter (fun o => o.orderStatus == "completed") =
      db.filter isCompletedPaid := by
    rw [List.filter_filter]
    apply List.filter_congr
    intro o _
    simp [isCompletedPaid]
  have h2 : (db.filter isPaid).filter (fun o => !(o.orderStatus == "completed")) =
      db.filter (fun o => isPaid o && !(o.orderStatus == "completed")) := by
    rw [List.filter_filter]
    apply List.filter_congr
    intro o _
    exact Bool.and_comm _ _
  rw [h1, h2] at hsplit
  simp only [paidRevenue, extraRevenue]
  linarith

theorem sum_pos_of_mem : ∀ (l : List Rat), (∀ x ∈ l, 0 ≤ x) → ∀ x ∈ l, 0 < x → 0 < l.sum := by
  intro l
  induction l with
  | nil =>
    intro _ x hx
    simp at hx
  | cons a t ih =>
    intro h0 x hx hxp
    rw [List.sum_cons]
    have hts : 0 ≤ t.sum := List.sum_nonneg (fun y hy => h0 y (by simp [hy]))
    rcases List.mem_cons.mp hx with he | he
    · subst he
      linarith
    · have ha := h0 a (by simp)
      have := ih (fun y hy => h0 y (by simp [hy])) x he hxp
      linarith

/-- Counterexample to C10 as stated: `dbC10` contains a paid, not completed
order with positive grand total, yet the dashboard total revenue (−5) does
not exceed the order-stats revenue sum (0), because another paid non-completed
order carries a negative grand total. -/
theorem dashboard_not_always_exceeds :
    ordPos ∈ dbC10 ∧ isPaid ordPos = true ∧ ordPos.orderStatus ≠ "completed" ∧
    0 < grandTotalOf ordPos ∧
    paidRevenue dbC10 = -5 ∧ orderStatsRevenueSum dbC10 = 0 ∧
    ¬ orderStatsRevenueSum dbC10 < paidRevenue dbC10 := by
  have hpr : paidRevenue dbC10 = -5 := by
    simp [paidRevenue, dbC10, ordPos, ordNeg, mkOrd, payPaid, priceUSD, isPaid, grandTotalOf]
    norm_num
  have hos : orderStatsRevenueSum dbC10 = 0 := by
    simp [orderStatsRevenueSum, revenueGroups, dbC10, ordPos, ordNeg, mkOrd, payPaid,
      priceUSD, isPaid, isCompletedPaid]
  refine ⟨by simp [dbC10], rfl, by decide, by norm_num [grandTotalOf, ordPos, mkOrd, priceUSD],
    hpr, hos, ?_⟩
  rw [hpr, hos]
  norm_num

/-- C10 amended: the two revenue metrics differ exactly by the paid revenue
of non-completed orders — `paidRevenue db = orderStatsRevenueSum db +
extraRevenue db` — and the dashboard total strictly exceeds the order-stats
sum whenever every paid non-completed order has a non-negative grand total
and at least one of them has a positive one. -/
theorem revenue_metrics_relation (db : List Order) :
    paidRevenue db = orderStatsRevenueSum db + extraRevenue db ∧
    ((∀ o ∈ db, isPaid o = true → o.orderStatus ≠ "completed" → 0 ≤ grandTotalOf o) →
      ∀ o ∈ db, isPaid o = true → o.orderStatus ≠ "completed" → 0 < grandTotalOf o →
        orderStatsRevenueSum db < paidRevenue db) := by
  refine ⟨paidRevenue_decomposition db, ?_⟩
  intro hnn o ho hp hc hpos
  have hmem : o ∈ db.filter (fun o => isPaid o && !(o.orderStatus == "completed")) :=
    List.mem_filter.mpr ⟨ho, by simp [hp, hc]⟩
  have hgt : 0 < extraRevenue db := by
    apply sum_pos_of_mem _ ?_ (grandTotalOf o) (List.mem_map_of_mem _ hmem) hpos
    intro x hxm
    obtain ⟨y, hy, hyx⟩ := List.mem_map.mp hxm
    have hyf := List.mem_filter.mp hy
    have hy2 := hyf.2
    simp only [Bool.and_eq_true] at hy2
    have hyc : y.orderStatus ≠ "completed" := by
      simpa using hy2.2
    have := hnn y hyf.1 hy2.1 hyc
    rw [← hyx]
    exact this
  have hd := paidRevenue_decomposition db
  linarith

/-- Concrete instance of the amended C10: with revenues 7 (completed paid)
and 5 (pending paid), the dashboard total 12 strictly exceeds the
order-stats sum 7. -/
theorem revenue_metrics_relation_witness :
    paidRevenue dbW10 = 12 ∧ orderStatsRevenueSum dbW10 = 7 ∧
    orderStatsRevenueSum dbW10 < paidRevenue dbW10 := by
  have hpr : paidRevenue dbW10 = 12 := by
    simp [paidRevenue, dbW10, ordDone, ordPos, mkOrd, payPaid, priceUSD, isPaid, grandTotalOf]
    norm_num
  have hos : orderStatsRevenueSum dbW10 = 7 := by
    simp [orderStatsRevenueSum, revenueGroups, dbW10, ordDone, ordPos, mkOrd, payPaid,
      priceUSD, isPaid, isCompletedPaid, grandTotalOf]
  have hnn : ∀ o ∈ dbW10, isPaid o = true → o.orderStatus ≠ "completed" → 0 ≤ grandTotalOf o := by
    intro o ho
    rcases List.mem_cons.mp ho with he | he
    · subst he
      intro _ hc
      exact absurd rfl hc
    · have : o = ordPos := by simpa [dbW10] using he
      subst this
      intro _ _
      norm_num [grandTotalOf, ordPos, mkOrd, priceUSD]
  refine ⟨hpr, hos, ?_⟩
  exact (revenue_metrics_relation dbW10).2 hnn ordPos (by simp [dbW10]) rfl (by decide)
    (by norm_num [grandTotalOf, ordPos, mkOrd, priceUSD])

theorem data_append (a b : String) : (a ++ b).data = a.data ++ b.data := by
  cases a
  cases b
  rfl

theorem natDigits_two (n : Nat) (h1 : 10 ≤ n) (h2 : n < 100) :
    natDigits n = [Nat.digitChar (n / 10), Nat.digitChar (n % 10)] := by
  rw [natDigits_ge10 n h1, natDigits_lt10 (n / 10) (by omega)]
  rfl

theorem natDigits_three (n : Nat) (h1 : 100 ≤ n) (h2 : n < 1000) :
    natDigits n = [Nat.digitChar (n / 100), Nat.digitChar (n / 10 % 10),
      Nat.digitChar (n % 10)] := by
  rw [natDigits_ge10 n (by omega), natDigits_two (n / 10) (by omega) (by omega)]
  have e : n / 10 / 10 = n / 100 := by omega
  rw [e]
  rfl

theorem natDigits_four (n : Nat) (h1 : 1000 ≤ n) (h2 : n ≤ 9999) :
    natDigits n = [Nat.digitChar (n / 1000), Nat.digitChar (n / 100 % 10),
      Nat.digitChar (n / 10 % 10), Nat.digitChar (n % 10)] := by
  rw [natDigits_ge10 n (by omega), natDigits_three (n / 10) (by omega) (by omega)]
  have e1 : n / 10 / 100 = n / 1000 := by omega
  have e2 : n / 10 / 10 % 10 = n / 100 % 10 := by omega
  rw [e1, e2]
  rfl

theorem pad4_data (n : Nat) (h : n ≤ 9999) :
    (padStart 4 '0' (natToStr n)).data = d4 n := by
  have hrepr : ∀ l : List Char, (padStart 4 '0' (String.mk l)).data =
      List.replicate (4 - l.length) '0' ++ l := fun l => rfl
  rcases Nat.lt_or_ge n 10 with h1 | h1
  · rw [show natToStr n = String.mk (natDigits n) from rfl, natDigits_lt10 n h1, hrepr]
    have e1 : n / 1000 % 10 = 0 := by omega
    have e2 : n / 100 % 10 = 0 := by omega
    have e3 : n / 10 % 10 = 0 := by omega
    have e4 : n % 10 = n := by omega
    simp only [d4, e1, e2, e3, e4]
    rfl
  rcases Nat.lt_or_ge n 100 with h2 | h2
  · rw [show natToStr n = String.mk (natDigits n) from rfl, natDigits_two n h1 h2, hrepr]
    have e1 : n / 1000 % 10 = 0 := by omega
    have e2 : n / 100 % 10 = 0 := by omega
    have e3 : n / 10 % 10 = n / 10 := by omega
    simp only [d4, e1, e2, e3]
    rfl
  rcases Nat.lt_or_ge n 1000 with h3 | h3
  · rw [show natToStr n = String.mk (natDigits n) from rfl, natDigits_three n h2 h3, hrepr]
    have e1 : n / 1000 % 10 = 0 := by omega
    have e2 : n / 100 % 10 = n / 100 := by omega
    simp only [d4, e1, e2]
    rfl
  · rw [show natToStr n = String.mk (natDigits n) from rfl, natDigits_four n h3 h, hrepr]
    have e1 : n / 1000 % 10 = n / 1000 := by omega
    simp only [d4, e1]
    rfl

theorem lexLtB_append (p : List Char) : ∀ a b, lexLtB (p ++ a) (p ++ b) = lexLtB a b := by
  induction p with
  | nil => intro a b; rfl
  | cons c t ih =>
    intro a b
    simp only [List.cons_append, lexLtB, if_neg (lt_irrefl c)]
    exact ih a b

theorem digitChar_lt_iff : ∀ x < 10, ∀ y < 10,
    (Nat.digitChar x < Nat.digitChar y ↔ x < y) := by decide

theorem digitChar_inj_iff : ∀ x < 10, ∀ y < 10,
    (Nat.digitChar x = Nat.digitChar y ↔ x = y) := by decide

theorem lexLtB_d4 (a b : Nat) (ha : a ≤ 9999) (hb : b ≤ 9999) :
    (lexLtB (d4 a) (d4 b) = true ↔ a < b) := by
  have key : ∀ x < 10, ∀ y < 10, (Nat.digitChar x < Nat.digitChar y ↔ x < y) :=
    digitChar_lt_iff
  simp only [d4, lexLtB]
  rcases Nat.lt_trichotomy (a / 1000 % 10) (b / 1000 % 10) with h3 | h3 | h3
  · rw [if_pos ((key _ (by omega) _ (by omega)).mpr h3)]
    exact ⟨fun _ => by omega, fun _ => rfl⟩
  · rw [if_neg (fun hh => by
        have := (key _ (by omega) _ (by omega)).mp hh
        omega),
      if_neg (fun hh => by
        have := (key _ (by omega) _ (by omega)).mp hh
        omega)]
    rcases Nat.lt_trichotomy (a / 100 % 10) (b / 100 % 10) with h2 | h2 | h2
    · rw [if_pos ((key _ (by omega) _ (by omega)).mpr h2)]
      exact ⟨fun _ => by omega, fun _ => rfl⟩
    · rw [if_neg (fun hh => by
          have := (key _ (by omega) _ (by omega)).mp hh
          omega),
        if_neg (fun hh => by
          have := (key _ (by omega) _ (by omega)).mp hh
          omega)]
      rcases Nat.lt_trichotomy (a / 10 % 10) (b / 10 % 10) with h1 | h1 | h1
      · rw [if_pos ((key _ (by omega) _ (by omega)).mpr h1)]
        exact ⟨fun _ => by omega, fun _ => rfl⟩
      · rw [if_neg (fun hh => by
            have := (key _ (by omega) _ (by omega)).mp hh
            omega),
          if_neg (fun hh => by
            have := (key _ (by omega) _ (by omega)).mp hh
            omega)]
        rcases Nat.lt_trichotomy (a % 10) (b % 10) with h0 | h0 | h0
        · rw [if_pos ((key _ (by omega) _ (by omega)).mpr h0)]
          exact ⟨fun _ => by omega, fun _ => rfl⟩
        · rw [if_neg (fun hh => by
              have := (key _ (by omega) _ (by omega)).mp hh
              omega),
            if_neg (fun hh => by
              have := (key _ (by omega) _ (by omega)).mp hh
              omega)]
          exact ⟨fun h => absurd h (by simp [lexLtB]), fun h => absurd h (by omega)⟩
        · rw [if_neg (fun hh => by
              have := (key _ (by omega) _ (by omega)).mp hh
              omega),
            if_pos ((key _ (by omega) _ (by omega)).mpr h0)]
          exact ⟨fun h => absurd h (by simp), fun h => absurd h (by omega)⟩
      · rw [if_neg (fun hh => by
            have := (key _ (by omega) _ (by omega)).mp hh
            omega),
          if_pos ((key _ (by omega) _ (by omega)).mpr h1)]
        exact ⟨fun h => absurd h (by simp), fun h => absurd h (by omega)⟩
    · rw [if_neg (fun hh => by
          have := (key _ (by omega) _ (by omega)).mp hh
          omega),
        if_pos ((key _ (by omega) _ (by omega)).mpr h2)]
      exact ⟨fun h => absurd h (by simp), fun h => absurd h (by omega)⟩
  · rw [if_neg (fun hh => by
        have := (key _ (by omega) _ (by omega)).mp hh
        omega),
      if_pos ((key _ (by omega) _ (by omega)).mpr h3)]
    exact ⟨fun h => absurd h (by simp), fun h => absurd h (by omega)⟩

theorem d4_inj (a b : Nat) (ha : a ≤ 9999) (hb : b ≤ 9999) (h : d4 a = d4 b) : a = b := by
  simp only [d4, List.cons.injEq, and_true] at h
  obtain ⟨h3, h2, h1, h0⟩ := h
  have e3 := (digitChar_inj_iff _ (by omega) _ (by omega)).mp h3
  have e2 := (digitChar_inj_iff _ (by omega) _ (by omega)).mp h2
  have e1 := (digitChar_inj_iff _ (by omega) _ (by omega)).mp h1
  have e0 := (digitChar_inj_iff _ (by omega) _ (by omega)).mp h0
  omega

theorem strLtB_mkON (year a b : Nat) (ha : a ≤ 9999) (hb : b ≤ 9999) :
    (strLtB (mkON year a) (mkON year b) = true ↔ a < b) := by
  unfold strLtB mkON
  rw [data_append, data_append, data_append, data_append, data_append, data_append]
  rw [pad4_data a ha, pad4_data b hb, lexLtB_append]
  exact lexLtB_d4 a b ha hb

theorem mkON_inj (year a b : Nat) (ha : a ≤ 9999) (hb : b ≤ 9999)
    (h : mkON year a = mkON year b) : a = b := by
  have hd := congrArg String.data h
  unfold mkON at hd
  rw [data_append, data_append, data_append, data_append, data_append, data_append,
    pad4_data a ha, pad4_data b hb] at hd
  exact d4_inj a b ha hb (List.append_cancel_left hd)

theorem strHasPre_mkON (year s : Nat) :
    strHasPre ("ORD-" ++ natToStr year ++ "-") (mkON year s) = true := by
  unfold strHasPre mkON
  rw [data_append]
  exact List.isPrefixOf_iff_prefix.mpr (List.prefix_append _ _)

theorem maxStr_cons_isSome (s : String) (t : List String) : (maxStr (s :: t)).isSome := by
  cases h : maxStr t <;> simp [maxStr, h]

theorem maxStr_mkON (year : Nat) : ∀ (l : List String), l ≠ [] →
    (∀ x ∈ l, ∃ s, s ≤ 9999 ∧ x = mkON year s) →
    ∃ sM, sM ≤ 9999 ∧ maxStr l = some (mkON year sM) ∧ mkON year sM ∈ l ∧
      (∀ x ∈ l, ∀ s, s ≤ 9999 → x = mkON year s → s ≤ sM) := by
  intro l
  induction l with
  | nil => intro h; exact absurd rfl h
  | cons x t ih =>
    intro _ hall
    obtain ⟨ys, hys, hx⟩ := hall x (by simp)
    rcases hmt : maxStr t with _ | M
    · have ht : t = [] := by
        cases t with
        | nil => rfl
        | cons y t' =>
          have := maxStr_cons_isSome y t'
          rw [hmt] at this
          simp at this
      subst ht
      refine ⟨ys, hys, ?_, ?_, ?_⟩
      · rw [show maxStr [x] = some x from rfl, hx]
      · rw [← hx]
        simp
      · intro z hz s hs hzs
        have hzx : z = x := by simpa using hz
        have : mkON year ys = mkON year s := by
          rw [← hx, ← hzs, hzx]
        exact le_of_eq (mkON_inj year s ys hs hys this.symm)
    · have htne : t ≠ [] := by
        intro e
        rw [e] at hmt
        simp [maxStr] at hmt
      obtain ⟨tm, htm9, htmeq, htmmem, htmbd⟩ := ih htne (fun z hz => hall z (by simp [hz]))
      have hMtm : M = mkON year tm := by
        rw [hmt] at htmeq
        exact (Option.some.injEq _ _).mp htmeq.symm |>.symm
      have hmax : maxStr (x :: t) = some (if strLtB M x then x else M) := by
        simp [maxStr, hmt]
      by_cases hlt : tm < ys
      · have hbt : strLtB M x = true := by
          rw [hMtm, hx]
          exact (strLtB_mkON year tm ys htm9 hys).mpr hlt
        refine ⟨ys, hys, ?_, by simp [← hx], ?_⟩
        · rw [hmax, hbt, if_pos rfl, hx]
        · intro z hz s hs hzs
          rcases List.mem_cons.mp hz with he | he
          · have : mkON year ys = mkON year s := by
              rw [← hx, ← hzs, he]
            exact le_of_eq (mkON_inj year s ys hs hys this.symm)
          · exact le_trans (htmbd z he s hs hzs) (le_of_lt hlt)
      · have hbf : strLtB M x = false := by
          rw [hMtm, hx]
          cases hbb : strLtB (mkON year tm) (mkON year ys)
          · rfl
          · exact absurd ((strLtB_mkON year tm ys htm9 hys).mp hbb) hlt
        refine ⟨tm, htm9, ?_, ?_, ?_⟩
        · rw [hmax, hbf, if_neg (by simp), hMtm]
        · exact List.mem_cons.mpr (Or.inr htmmem)
        · intro z hz s hs hzs
          rcases List.mem_cons.mp hz with he | he
          · have : mkON year ys = mkON year s := by
              rw [← hx, ← hzs, he]
            have := mkON_inj year s ys hs hys this.symm
            omega
          · exact htmbd z he s hs hzs

theorem digit_not_dash (c : Char) (h : c.isDigit = true) : (c == '-') = false := by
  cases hb : (c == '-')
  · rfl
  · have : c = '-' := eq_of_beq hb
    subst this
    exact absurd h (by decide)

theorem natDigitsAux_digits : ∀ (fuel n : Nat), ∀ c ∈ natDigitsAux fuel n, c.isDigit = true := by
  intro fuel
  induction fuel with
  | zero => intro n c hc; simp [natDigitsAux] at hc
  | succ f ih =>
    intro n c hc
    by_cases h : n < 10
    · simp only [natDigitsAux, if_pos h, List.mem_singleton] at hc
      subst hc
      exact (by decide : ∀ k < 10, (Nat.digitChar k).isDigit = true) n h
    · simp only [natDigitsAux, if_neg h, List.mem_append, List.mem_singleton] at hc
      rcases hc with hc | hc
      · exact ih (n / 10) c hc
      · subst hc
        exact (by decide : ∀ k < 10, (Nat.digitChar k).isDigit = true) (n % 10) (by omega)

theorem natDigits_digits (n : Nat) : ∀ c ∈ natDigits n, c.isDigit = true :=
  natDigitsAux_digits (n + 1) n

theorem natDigits_ne_nil (n : Nat) : natDigits n ≠ [] := by
  unfold natDigits natDigitsAux
  by_cases h : n < 10 <;> simp [h]

theorem digitsVal_replicate (k : Nat) (l : List Char) :
    digitsVal (List.replicate k '0' ++ l) = digitsVal l := by
  induction k with
  | zero => rfl
  | succ j ih =>
    rw [List.replicate_succ, List.cons_append]
    exact ih

theorem digitsVal_append_last (l : List Char) (c : Char) :
    digitsVal (l ++ [c]) = digitsVal l * 10 + (c.toNat - 48) := by
  simp [digitsVal, List.foldl_append]

theorem digitsVal_natDigitsAux : ∀ (fuel n : Nat), n < fuel →
    digitsVal (natDigitsAux fuel n) = n := by
  intro fuel
  induction fuel with
  | zero => intro n h; omega
  | succ f ih =>
    intro n h
    by_cases h10 : n < 10
    · simp only [natDigitsAux, if_pos h10]
      have : ∀ k < 10, digitsVal [Nat.digitChar k] = k := by decide
      exact this n h10
    · simp only [natDigitsAux, if_neg h10]
      rw [digitsVal_append_last, ih (n / 10) (by omega)]
      have : ∀ k < 10, (Nat.digitChar k).toNat - 48 = k := by decide
      rw [this (n % 10) (by omega)]
      omega

theorem digitsVal_natDigits (n : Nat) : digitsVal (natDigits n) = n :=
  digitsVal_natDigitsAux (n + 1) n (Nat.lt_succ_self n)

theorem parseIntJS_padStart (s : Nat) :
    parseIntJS (padStart 4 '0' (natToStr s)) = some s := by
  have hdata : (padStart 4 '0' (natToStr s)).data =
      List.replicate (4 - (natDigits s).length) '0' ++ natDigits s := rfl
  have hdig : ∀ c ∈ (padStart 4 '0' (natToStr s)).data, c.isDigit = true := by
    rw [hdata]
    intro c hc
    rcases List.mem_append.mp hc with hc | hc
    · have : c = '0' := List.eq_of_mem_replicate hc
      subst this
      decide
    · exact natDigits_digits s c hc
  unfold parseIntJS
  rw [List.takeWhile_eq_self_iff.mpr (by simpa using hdig)]
  rw [if_neg (by
    simp only [List.isEmpty_iff, hdata]
    intro he
    exact natDigits_ne_nil s (List.append_eq_nil.mp he).2)]
  rw [hdata, digitsVal_replicate, digitsVal_natDigits]

theorem splitOnChar_sep (c : Char) : ∀ (l r : List Char), (∀ x ∈ l, (x == c) = false) →
    splitOnChar c (l ++ c :: r) = l :: splitOnChar c r := by
  intro l
  induction l with
  | nil =>
    intro r _
    simp [splitOnChar]
  | cons a l' ih =>
    intro r hl
    have ha : (a == c) = false := hl a (by simp)
    rw [List.cons_append]
    simp only [splitOnChar, ha, Bool.false_eq_true, if_false]
    rw [ih r (fun x hx => hl x (by simp [hx]))]

theorem splitOnChar_no (c : Char) : ∀ (l : List Char), (∀ x ∈ l, (x == c) = false) →
    splitOnChar c l = [l] := by
  intro l
  induction l with
  | nil => intro _; rfl
  | cons a l' ih =>
    intro hl
    have ha : (a == c) = false := hl a (by simp)
    simp only [splitOnChar, ha, Bool.false_eq_true, if_false]
    rw [ih (fun x hx => hl x (by simp [hx]))]

theorem splitPart2_mkON (year s : Nat) :
    splitPart2 (mkON year s) = padStart 4 '0' (natToStr s) := by
  have hdata : (mkON year s).data =
      ['O', 'R', 'D'] ++ '-' :: ((natToStr year).data ++
        '-' :: (padStart 4 '0' (natToStr s)).data) := by
    unfold mkON
    rw [data_append, data_append, data_append]
    simp
  have hyd : ∀ x ∈ (natToStr year).data, (x == '-') = false := fun x hx =>
    digit_not_dash x (natDigits_digits year x hx)
  have hpd : ∀ x ∈ (padStart 4 '0' (natToStr s)).data, (x == '-') = false := by
    intro x hx
    apply digit_not_dash
    rcases List.mem_append.mp hx with hc | hc
    · have : x = '0' := List.eq_of_mem_replicate hc
      subst this
      decide
    · exact natDigits_digits s x hc
  unfold splitPart2
  rw [hdata, splitOnChar_sep '-' ['O', 'R', 'D'] _ (by decide),
    splitOnChar_sep '-' _ _ hyd, splitOnChar_no '-' _ hpd]
  simp only [List.getD]
  cases hps : padStart 4 '0' (natToStr s)
  rfl

theorem generateOrderNumber_fresh (db : List Order) (year : Nat)
    (hnone : ∀ o ∈ db, strHasPre ("ORD-" ++ natToStr year ++ "-") o.orderNumber = false) :
    generateOrderNumber db year = mkON year 1 := by
  simp only [generateOrderNumber]
  have hf : (db.map Order.orderNumber).filter
      (fun s => strHasPre ("ORD-" ++ natToStr year ++ "-") s) = [] := by
    apply List.filter_eq_nil_iff.mpr
    intro x hx
    obtain ⟨o, ho, he⟩ := List.mem_map.mp hx
    rw [← he]
    simp [hnone o ho]
  rw [hf]
  rfl

theorem generateOrderNumber_max (db : List Order) (year m : Nat)
    (hm9 : m ≤ 9998)
    (hmem : mkON year m ∈ db.map Order.orderNumber)
    (hall : ∀ o ∈ db, strHasPre ("ORD-" ++ natToStr year ++ "-") o.orderNumber = true →
      ∃ s, s ≤ m ∧ o.orderNumber = mkON year s) :
    generateOrderNumber db year = mkON year (m + 1) := by
  have hcands1 : ∀ x ∈ (db.map Order.orderNumber).filter
      (fun s => strHasPre ("ORD-" ++ natToStr year ++ "-") s),
      ∃ s, s ≤ 9999 ∧ x = mkON year s := by
    intro x hx
    obtain ⟨hxm, hxp⟩ := List.mem_filter.mp hx
    obtain ⟨o, ho, he⟩ := List.mem_map.mp hxm
    obtain ⟨s, hsm, hs⟩ := hall o ho (by rw [← he] at hxp; exact hxp)
    exact ⟨s, by omega, by rw [← he, hs]⟩
  have hmemc : mkON year m ∈ (db.map Order.orderNumber).filter
      (fun s => strHasPre ("ORD-" ++ natToStr year ++ "-") s) :=
    List.mem_filter.mpr ⟨hmem, strHasPre_mkON year m⟩
  obtain ⟨sM, hsM9, heq, hmemM, hbd⟩ :=
    maxStr_mkON year _ (List.ne_nil_of_mem hmemc) hcands1
  have h1 : m ≤ sM := hbd _ hmemc m (by omega) rfl
  have h2 : sM ≤ m := by
    obtain ⟨hmm, _⟩ := List.mem_filter.mp hmemM
    obtain ⟨o, ho, hoe⟩ := List.mem_map.mp hmm
    obtain ⟨s, hsm, hs⟩ := hall o ho (by rw [hoe]; exact strHasPre_mkON year sM)
    have := mkON_inj year sM s hsM9 (by omega) (by rw [← hoe, hs])
    omega
  have hsMm : sM = m := le_antisymm h2 h1
  rw [hsMm] at heq
  simp only [generateOrderNumber]
  rw [heq]
  simp only
  rw [splitPart2_mkON, parseIntJS_padStart]
  rfl

theorem newOrderOf_props (db : List Order) (req : CreateReq) (newId year now : Nat)
    (o : Order) (h : newOrderOf db req newId year now = some o) :
    o.orderStatus = "pending" ∧ o.cancellation.isCancelled = false ∧
    o.orderNumber = generateOrderNumber db year := by
  unfold newOrderOf at h
  rcases hc : req.customer with _ | customer <;> rw [hc] at h
  · exact Option.noConfusion h
  · rcases hp : resolvePricing req with _ | ⟨pd, pl⟩ <;> rw [hp] at h
    · exact Option.noConfusion h
    · simp only at h
      rcases hi : resolveItems req pl pd.grandTotal with _ | its <;> rw [hi] at h
      · exact Option.noConfusion h
      · simp only at h
        cases h
        exact ⟨rfl, rfl, rfl⟩

/-- C4 amended: every validated create request inserts an order with
`orderStatus = "pending"`, `cancellation.isCancelled = false` and
`orderNumber = generateOrderNumber db year`; when no stored number carries
the current year's prefix the number is `ORD-<year>-0001`; and when the
current year's stored numbers are exactly zero-padded sequences bounded by a
maximum `m ≤ 9998` that is attained, the new number is `ORD-<year>-<m+1
padded to 4 digits>` and differs from every stored number.  (Outside that
range the read of the lexicographic maximum diverges from the numeric
maximum, as the counterexample shows.) -/
theorem createOrder_orderNumber_spec
    (db : List Order) (req : CreateReq) (newId year now : Nat)
    (hv : createValidate db req = none) :
    (∃ o, createOrder db req newId year now = ⟨Except.ok o, db ++ [o]⟩ ∧
      o.orderStatus = "pending" ∧ o.cancellation.isCancelled = false ∧
      o.orderNumber = generateOrderNumber db year) ∧
    ((∀ o ∈ db, strHasPre ("ORD-" ++ natToStr year ++ "-") o.orderNumber = false) →
      generateOrderNumber db year = mkON year 1 ∧
      ∀ o ∈ db, o.orderNumber ≠ mkON year 1) ∧
    (∀ m, m ≤ 9998 → mkON year m ∈ db.map Order.orderNumber →
      (∀ o ∈ db, strHasPre ("ORD-" ++ natToStr year ++ "-") o.orderNumber = true →
        ∃ s, s ≤ m ∧ o.orderNumber = mkON year s) →
      generateOrderNumber db year = mkON year (m + 1) ∧
      ∀ o ∈ db, o.orderNumber ≠ mkON year (m + 1)) := by
  refine ⟨?_, ?_, ?_⟩
  · obtain ⟨o, hno, hco⟩ := (createOrder_eq_validate db req newId year now).2 hv
    obtain ⟨hst, hcc, hon⟩ := newOrderOf_props db req newId year now o hno
    exact ⟨o, hco, hst, hcc, hon⟩
  · intro hnone
    refine ⟨generateOrderNumber_fresh db year hnone, ?_⟩
    intro o ho he
    have := hnone o ho
    rw [he, strHasPre_mkON year 1] at this
    exact Bool.noConfusion this
  · intro m hm9 hmem hall
    refine ⟨generateOrderNumber_max db year m hm9 hmem hall, ?_⟩
    intro o ho he
    by_cases hp : strHasPre ("ORD-" ++ natToStr year ++ "-") o.orderNumber = true
    · obtain ⟨s, hsm, hs⟩ := hall o ho hp
      have := mkON_inj year s (m + 1) (by omega) (by omega) (by rw [← hs, he])
      omega
    · rw [he, strHasPre_mkON year (m + 1)] at hp
      exact hp rfl

/-- Counterexample to C4 as stated: with `ORD-2025-9999` and
`ORD-2025-10000` stored, the lexicographically greatest current-year number
is `ORD-2025-9999`, so the generator emits `ORD-2025-10000` — a duplicate of
a stored number, and not one greater than the highest existing sequence
(10000). -/
theorem generateOrderNumber_collision :
    ("ORD-2025-10000" ∈ dbC4.map Order.orderNumber) ∧
    generateOrderNumber dbC4 2025 = "ORD-2025-10000" ∧
    respOrderNumber (createOrder dbC4 reqC4 3 2025 0).resp = some "ORD-2025-10000" := by
  exact ⟨by decide, rfl, rfl⟩

/-- Concrete instance of the amended C4: with `ORD-2025-0007` the highest
2025 number, the next generated number is `ORD-2025-0008`, which no stored
order carries. -/
theorem createOrder_orderNumber_spec_witness :
    createValidate dbW4 reqC4 = none ∧
    generateOrderNumber dbW4 2025 = "ORD-2025-0008" ∧
    ((dbW4.map Order.orderNumber).contains "ORD-2025-0008") = false := by
  have h := (createOrder_orderNumber_spec dbW4 reqC4 9 2025 0 rfl).2.2 7 (by omega)
    (by decide)
    (by
      intro o ho hp
      rcases List.mem_cons.mp ho with he | he
      · subst he
        exact ⟨7, le_refl 7, by decide⟩
      · have : o = ordNumOther := by simpa [dbW4] using he
        subst this
        exact absurd hp (by decide))
  obtain ⟨hgen, _⟩ := h
  refine ⟨rfl, ?_, by decide⟩
  rw [hgen]
  rfl

end AgencyOrders
